import Mathlib

/-!
Verification of the rollback-aware node-graph mutation layer of the
opc-ua-plugin-server repository (src/app/ua_utils.c), the ioports plugin's
registry swap and construct entry point (src/app/plugins/ioports), and the
plugin host loop (src/app/opcua_server.c), against the repository's
natural-language specification.

The open62541 protocol engine (graph store) is an external collaborator;
its operations are modelled from the specification's interface description
(spec section 6).  Everything else is translated from the C source.
-/

namespace OpcUa

/-! ## Status codes (numeric values as in open62541) -/

abbrev UA_StatusCode := Nat

def UA_STATUSCODE_GOOD : UA_StatusCode := 0

def UA_STATUSCODE_BAD : UA_StatusCode := 0x80000000

def UA_STATUSCODE_BADINTERNALERROR : UA_StatusCode := 0x80020000

def UA_STATUSCODE_BADOUTOFMEMORY : UA_StatusCode := 0x80030000

def UA_STATUSCODE_BADNODEIDUNKNOWN : UA_StatusCode := 0x80340000

def UA_STATUSCODE_BADPARENTNODEIDINVALID : UA_StatusCode := 0x805B0000

def UA_STATUSCODE_BADNODEIDEXISTS : UA_StatusCode := 0x805E0000

/-- Modelled from the spec: `UA_StatusCode_name` maps a status code to its
symbolic name (open62541 helper used in the repository's error messages). -/
def UA_StatusCode_name (c : UA_StatusCode) : String :=
  if c = UA_STATUSCODE_GOOD then "Good"
  else if c = UA_STATUSCODE_BADINTERNALERROR then "BadInternalError"
  else if c = UA_STATUSCODE_BADOUTOFMEMORY then "BadOutOfMemory"
  else if c = UA_STATUSCODE_BADNODEIDUNKNOWN then "BadNodeIdUnknown"
  else if c = UA_STATUSCODE_BADPARENTNODEIDINVALID then "BadParentNodeIdInvalid"
  else if c = UA_STATUSCODE_BADNODEIDEXISTS then "BadNodeIdExists"
  else "Unknown StatusCode"

/-! ## Node identifiers and node kinds -/

/-- Namespace-qualified numeric node identifier (`UA_NodeId`); the
repository's builders use numeric identifiers throughout. -/
structure UA_NodeId where
  namespaceIndex : Nat
  identifier : Nat
deriving DecidableEq, Repr

/-- `UA_NODEID_NULL` (ns 0, numeric 0). -/
def UA_NODEID_NULL : UA_NodeId := ⟨0, 0⟩

/-- The five node kinds for which `ua_utils.c` provides rollback-aware
creation wrappers. -/
inductive NodeKind where
  | objectNode
  | variableNode
  | dataTypeNode
  | objectTypeNode
  | methodNode
deriving DecidableEq, Repr

/-! ## Graph-store state -/

/-- The part of `UA_ServerConfig` the core touches: the head pointer of the
custom data-type chain.  A pointer is modelled by the chain of data-type
array tags it leads to; `[]` models the NULL pointer. -/
structure UA_ServerConfig where
  customDataTypes : List Nat
deriving DecidableEq, Repr

/-- Modelled from the spec: the external graph store (protocol engine).
`nodes` is the node-id set of the information model (most recently created
first), `namespaces` the namespace-URI array (index = position), and
`nodeIdCounter` the source of engine-assigned numeric identifiers for
creation requests whose requested identifier is 0 (auto-generate). -/
structure UA_Server where
  config : UA_ServerConfig
  nodes : List UA_NodeId
  namespaces : List String
  nodeIdCounter : Nat
deriving DecidableEq, Repr

/-- Failure-injection environment for the external graph store: for each
operation, the status code the store decides to fail with (`GOOD` = the
store does not inject a failure). -/
structure StoreEnv where
  createFail : NodeKind → UA_NodeId → UA_StatusCode
  deleteFail : UA_NodeId → UA_StatusCode
  addRefFail : UA_NodeId → UA_NodeId → UA_StatusCode
  writeNotifierFail : UA_NodeId → UA_StatusCode

/-- One call issued to the external graph store, with the status it
returned: the observable trace of the mutation layer. -/
inductive StoreEvent where
  | createNode (kind : NodeKind) (requestedNewNodeId newNodeId : UA_NodeId)
      (status : UA_StatusCode)
  | deleteNode (nodeId : UA_NodeId) (deleteReferences : Bool)
      (status : UA_StatusCode)
  | addReference (sourceId targetId : UA_NodeId) (status : UA_StatusCode)
  | writeEventNotifier (nodeId : UA_NodeId) (status : UA_StatusCode)
  | setCustomDataTypes (cdt : List Nat)
deriving DecidableEq, Repr

/-- Modelled from the spec: the graph store's generic creation primitive
`create_node(kind, requested_id, parent_id, ...) -> (new_id | failure_code)`
behind `UA_Server_addObjectNode` / `addVariableNode` / `addDataTypeNode` /
`addObjectTypeNode` / `addMethodNode`.  A requested identifier of 0 asks the
engine to assign a fresh numeric identifier (the result id is returned).
Rejections (duplicate identifier, invalid parent, or an
environment-injected failure) leave the store untouched. -/
def create_node (env : StoreEnv) (server : UA_Server) (kind : NodeKind)
    (requestedNewNodeId parentNodeId : UA_NodeId) :
    UA_StatusCode × UA_Server × UA_NodeId :=
  let newId : UA_NodeId :=
    if requestedNewNodeId.identifier = 0 then
      ⟨requestedNewNodeId.namespaceIndex, server.nodeIdCounter⟩
    else requestedNewNodeId
  if newId ∈ server.nodes then
    (UA_STATUSCODE_BADNODEIDEXISTS, server, UA_NODEID_NULL)
  else if parentNodeId ∉ server.nodes then
    (UA_STATUSCODE_BADPARENTNODEIDINVALID, server, UA_NODEID_NULL)
  else if env.createFail kind requestedNewNodeId ≠ UA_STATUSCODE_GOOD then
    (env.createFail kind requestedNewNodeId, server, UA_NODEID_NULL)
  else
    (UA_STATUSCODE_GOOD,
     { server with
        nodes := newId :: server.nodes
        nodeIdCounter :=
          if requestedNewNodeId.identifier = 0 then server.nodeIdCounter + 1
          else server.nodeIdCounter },
     newId)

/-- Modelled from the spec: `delete_node(id, recursive) -> (ok |
failure_code)` (`UA_Server_deleteNode`); deleting removes the node and its
references from the store.  The environment may inject a refusal. -/
def delete_node (env : StoreEnv) (server : UA_Server) (nodeId : UA_NodeId) :
    UA_StatusCode × UA_Server :=
  if env.deleteFail nodeId ≠ UA_STATUSCODE_GOOD then
    (env.deleteFail nodeId, server)
  else if nodeId ∈ server.nodes then
    (UA_STATUSCODE_GOOD, { server with nodes := server.nodes.erase nodeId })
  else
    (UA_STATUSCODE_BADNODEIDUNKNOWN, server)

/-- Modelled from the spec: `UA_Server_addNamespace` returns the index of
the URI in the engine's namespace array, appending it if absent. -/
def UA_Server_addNamespace (server : UA_Server) (uri : String) :
    Nat × UA_Server :=
  match server.namespaces.indexOf? uri with
  | some i => (i, server)
  | none =>
      (server.namespaces.length,
       { server with namespaces := server.namespaces ++ [uri] })

/-! ## src/app/include/ua_utils.h and src/app/ua_utils.c -/

/-- `rollback_data_t` (ua_utils.h): the rollback ledger.  `saved_cdt`
snapshots the server's previous custom data-type chain head pointer
(`[]` models a NULL / never-written pointer, as produced by `g_new0`);
`node_ids` is the `GList` of created node ids, populated by
`g_list_prepend` (head = most recently created). -/
structure rollback_data_t where
  saved_cdt : List Nat
  node_ids : List UA_NodeId
deriving DecidableEq, Repr

/-- `GError` as used via `SET_ERROR(err, code, fmt, ...)`: a numeric code
plus the formatted message text. -/
structure GError where
  code : Int
  message : String
deriving DecidableEq, Repr

/-- `add_nodeid_to_rbd` (ua_utils.c:36-62): allocate a copy of the node id
and `g_list_prepend` it to `rbd->node_ids`.  `allocOk` models whether the
`UA_NodeId_new` / `UA_NodeId_copy` allocations succeed; on allocation
failure the ledger is left untouched and `UA_STATUSCODE_BADOUTOFMEMORY`
is returned. -/
def add_nodeid_to_rbd (allocOk : Bool) (node_id : UA_NodeId)
    (rbd : rollback_data_t) : UA_StatusCode × rollback_data_t :=
  if allocOk then
    (UA_STATUSCODE_GOOD, { rbd with node_ids := node_id :: rbd.node_ids })
  else
    (UA_STATUSCODE_BADOUTOFMEMORY, rbd)

/-- `ua_utils_clear_rbd` (ua_utils.c:66-84): frees the recorded node ids
and the `rollback_data_t` itself, leaving `*rbd == NULL`.  Its C signature
takes no server handle, so it cannot issue any graph-store call. -/
def ua_utils_clear_rbd (rbd : Option rollback_data_t) :
    Option rollback_data_t :=
  none

/-- Result of `ua_utils_do_rollback`: the returned gboolean, the resulting
store state, the `GError` (if set), and the trace of store calls issued. -/
structure RollbackResult where
  ret : Bool
  server : UA_Server
  err : Option GError
  events : List StoreEvent
deriving Repr

/-- The deletion loop of `ua_utils_do_rollback` (ua_utils.c:111-124):
walk `rbd->node_ids` from the head (reverse creation order, since the list
was built by prepending) and `UA_Server_deleteNode(server, id, TRUE)` each
entry; on the first non-GOOD status, `SET_ERROR` and `goto err_out` with
`ret == FALSE`.  (The C `if (l->data)` NULL guard is always taken: the
list only ever holds successfully allocated node ids.) -/
def rollback_delete_loop (env : StoreEnv) :
    UA_Server → List UA_NodeId → RollbackResult
  | server, [] => ⟨true, server, none, []⟩
  | server, nid :: rest =>
      let r := delete_node env server nid
      if r.1 ≠ UA_STATUSCODE_GOOD then
        ⟨false, r.2,
         some ⟨-1, "UA_Server_deleteNode() failed: " ++ UA_StatusCode_name r.1⟩,
         [StoreEvent.deleteNode nid true r.1]⟩
      else
        let r2 := rollback_delete_loop env r.2 rest
        ⟨r2.ret, r2.server, r2.err,
         StoreEvent.deleteNode nid true r.1 :: r2.events⟩

/-- `ua_utils_do_rollback` (ua_utils.c:86-131): obtain the server config
(always succeeds), restore `config->customDataTypes` from `rbd->saved_cdt`
when the latter is non-NULL, then delete the recorded node ids in reverse
creation order, stopping at the first failing delete. -/
def ua_utils_do_rollback (env : StoreEnv) (server : UA_Server)
    (rbd : rollback_data_t) : RollbackResult :=
  let restored : UA_Server × List StoreEvent :=
    if rbd.saved_cdt ≠ [] then
      ({ server with config := { customDataTypes := rbd.saved_cdt } },
       [StoreEvent.setCustomDataTypes rbd.saved_cdt])
    else (server, [])
  let r := rollback_delete_loop env restored.1 rbd.node_ids
  { r with events := restored.2 ++ r.events }

/-- Result of one rollback-aware creation wrapper: the returned status, the
resulting store state and ledger, the value written through `outNewNodeId`
(`some` iff the caller passed a slot and the creation succeeded), and the
trace of store calls issued. -/
structure FacadeResult where
  status : UA_StatusCode
  server : UA_Server
  rbd : rollback_data_t
  outNewNodeId : Option UA_NodeId
  events : List StoreEvent
deriving Repr

/-- Shared body of the five `UA_Server_add*Node_rb` wrappers
(ua_utils.c:133-331), which are textually identical up to the underlying
creation primitive: call the store's creation primitive; on GOOD fill the
caller's `outNewNodeId` slot (when given) and OR in the status of
`add_nodeid_to_rbd`; on failure return the store's status with the ledger
untouched. -/
def addNode_rb_core (kind : NodeKind) (env : StoreEnv) (allocOk : Bool)
    (server : UA_Server) (requestedNewNodeId parentNodeId : UA_NodeId)
    (rbd : rollback_data_t) (wantOut : Bool) : FacadeResult :=
  let c := create_node env server kind requestedNewNodeId parentNodeId
  let ua_status := c.1
  let server2 := c.2.1
  let out_nodeid := c.2.2
  if ua_status = UA_STATUSCODE_GOOD then
    let a := add_nodeid_to_rbd allocOk out_nodeid rbd
    { status := ua_status ||| a.1
      server := server2
      rbd := a.2
      outNewNodeId := if wantOut then some out_nodeid else none
      events :=
        [StoreEvent.createNode kind requestedNewNodeId out_nodeid ua_status] }
  else
    { status := ua_status
      server := server2
      rbd := rbd
      outNewNodeId := none
      events :=
        [StoreEvent.createNode kind requestedNewNodeId out_nodeid ua_status] }

/-- `UA_Server_addObjectNode_rb` (ua_utils.c:133-170). -/
def UA_Server_addObjectNode_rb (env : StoreEnv) (allocOk : Bool)
    (server : UA_Server) (requestedNewNodeId parentNodeId : UA_NodeId)
    (rbd : rollback_data_t) (wantOut : Bool) : FacadeResult :=
  addNode_rb_core NodeKind.objectNode env allocOk server requestedNewNodeId
    parentNodeId rbd wantOut

/-- `UA_Server_addDataTypeNode_rb` (ua_utils.c:172-207). -/
def UA_Server_addDataTypeNode_rb (env : StoreEnv) (allocOk : Bool)
    (server : UA_Server) (requestedNewNodeId parentNodeId : UA_NodeId)
    (rbd : rollback_data_t) (wantOut : Bool) : FacadeResult :=
  addNode_rb_core NodeKind.dataTypeNode env allocOk server requestedNewNodeId
    parentNodeId rbd wantOut

/-- `UA_Server_addVariableNode_rb` (ua_utils.c:209-246). -/
def UA_Server_addVariableNode_rb (env : StoreEnv) (allocOk : Bool)
    (server : UA_Server) (requestedNewNodeId parentNodeId : UA_NodeId)
    (rbd : rollback_data_t) (wantOut : Bool) : FacadeResult :=
  addNode_rb_core NodeKind.variableNode env allocOk server requestedNewNodeId
    parentNodeId rbd wantOut

/-- `UA_Server_addObjectTypeNode_rb` (ua_utils.c:248-283). -/
def UA_Server_addObjectTypeNode_rb (env : StoreEnv) (allocOk : Bool)
    (server : UA_Server) (requestedNewNodeId parentNodeId : UA_NodeId)
    (rbd : rollback_data_t) (wantOut : Bool) : FacadeResult :=
  addNode_rb_core NodeKind.objectTypeNode env allocOk server
    requestedNewNodeId parentNodeId rbd wantOut

/-- `UA_Server_addMethodNode_rb` (ua_utils.c:285-331). -/
def UA_Server_addMethodNode_rb (env : StoreEnv) (allocOk : Bool)
    (server : UA_Server) (requestedNewNodeId parentNodeId : UA_NodeId)
    (rbd : rollback_data_t) (wantOut : Bool) : FacadeResult :=
  addNode_rb_core NodeKind.methodNode env allocOk server requestedNewNodeId
    parentNodeId rbd wantOut

/-! ## Builder sequences (the interaction pattern of the per-plugin
information-model builders with the facade, spec sections 2 and 4.1) -/

/-- One step of an information-model builder: a rollback-aware node
creation (through the facade), or one of the two non-recorded auxiliary
store calls the ioports builders issue (`UA_Server_addReference`,
`UA_Server_writeEventNotifier`). -/
inductive BuildStep where
  | addNode (kind : NodeKind) (requestedNewNodeId parentNodeId : UA_NodeId)
  | addReference (sourceId targetId : UA_NodeId)
  | writeEventNotifier (nodeId : UA_NodeId)
deriving DecidableEq, Repr

/-- Result of running a builder sequence: first non-GOOD status (or GOOD),
resulting store state and ledger, trace of store calls issued. -/
structure RunResult where
  status : UA_StatusCode
  server : UA_Server
  rbd : rollback_data_t
  events : List StoreEvent
deriving Repr

/-- Execution of a single builder step.  `addNode` dispatches to the
rollback-aware wrapper for the node kind (the builders pass a NULL
`outNewNodeId`, hence `wantOut := false`); the auxiliary calls mutate no
modelled state and are never recorded in the ledger. -/
def run_build_step (env : StoreEnv) (allocOk : Bool) (server : UA_Server)
    (rbd : rollback_data_t) : BuildStep → RunResult
  | BuildStep.addNode NodeKind.objectNode reqId parentId =>
      let r := UA_Server_addObjectNode_rb env allocOk server reqId parentId
        rbd false
      ⟨r.status, r.server, r.rbd, r.events⟩
  | BuildStep.addNode NodeKind.variableNode reqId parentId =>
      let r := UA_Server_addVariableNode_rb env allocOk server reqId parentId
        rbd false
      ⟨r.status, r.server, r.rbd, r.events⟩
  | BuildStep.addNode NodeKind.dataTypeNode reqId parentId =>
      let r := UA_Server_addDataTypeNode_rb env allocOk server reqId parentId
        rbd false
      ⟨r.status, r.server, r.rbd, r.events⟩
  | BuildStep.addNode NodeKind.objectTypeNode reqId parentId =>
      let r := UA_Server_addObjectTypeNode_rb env allocOk server reqId
        parentId rbd false
      ⟨r.status, r.server, r.rbd, r.events⟩
  | BuildStep.addNode NodeKind.methodNode reqId parentId =>
      let r := UA_Server_addMethodNode_rb env allocOk server reqId parentId
        rbd false
      ⟨r.status, r.server, r.rbd, r.events⟩
  | BuildStep.addReference src tgt =>
      ⟨env.addRefFail src tgt, server, rbd,
       [StoreEvent.addReference src tgt (env.addRefFail src tgt)]⟩
  | BuildStep.writeEventNotifier nid =>
      ⟨env.writeNotifierFail nid, server, rbd,
       [StoreEvent.writeEventNotifier nid (env.writeNotifierFail nid)]⟩

/-- Execution of a builder sequence with the early-exit pattern every
ioports builder uses (`if (retv != UA_STATUSCODE_GOOD) return retv;`):
stop at the first failing step, leaving subsequent steps unexecuted. -/
def run_build_steps (env : StoreEnv) (allocOk : Bool) :
    UA_Server → rollback_data_t → List BuildStep → RunResult
  | server, rbd, [] => ⟨UA_STATUSCODE_GOOD, server, rbd, []⟩
  | server, rbd, step :: rest =>
      let r := run_build_step env allocOk server rbd step
      if r.status ≠ UA_STATUSCODE_GOOD then
        ⟨r.status, r.server, r.rbd, r.events⟩
      else
        let r2 := run_build_steps env allocOk r.server r.rbd rest
        ⟨r2.status, r2.server, r2.rbd, r.events ++ r2.events⟩

/-! ## src/app/plugins/ioports/ioports_ns.c -/

/-- Numeric node-id constants (ioports_nodeids.h and the open62541 NS0
identifiers used by ioports_ns.c). -/
def UA_IOPID_IOPORTOBJTYPE : Nat := 1004

def UA_IOPID_IOPEVENTTYPE : Nat := 1005

def UA_IOPID_IOPSTATEEVENTTYPE : Nat := 1008

def UA_IOPID_IOPDIRECTIONEVENTTYPE : Nat := 1011

def UA_IOPID_IOPNORMALSTATEEVENTTYPE : Nat := 1014

def UA_IOPID_IOPORTDIRECTIONTYPE : Nat := 3004

def UA_IOPID_IOPORTSTATETYPE : Nat := 3005

def UA_IOPID_IOPORTS : Nat := 5006

def UA_IOPID_IOPORTOBJTYPE_CONFIGURABLE : Nat := 6007

def UA_IOPID_IOPORTOBJTYPE_DIRECTION : Nat := 6008

def UA_IOPID_IOPORTOBJTYPE_DISABLED : Nat := 6009

def UA_IOPID_IOPORTOBJTYPE_INDEX : Nat := 6010

def UA_IOPID_IOPORTOBJTYPE_NAME : Nat := 6011

def UA_IOPID_IOPORTOBJTYPE_NORMALSTATE : Nat := 6012

def UA_IOPID_IOPORTOBJTYPE_STATE : Nat := 6013

def UA_IOPID_IOPORTOBJTYPE_USAGE : Nat := 6014

def UA_IOPID_IOPORTDIRECTIONTYPE_ENUMSTRINGS : Nat := 6026

def UA_IOPID_IOPORTSTATETYPE_ENUMSTRINGS : Nat := 6042

def UA_NS0ID_BOOLEAN : Nat := 1

def UA_NS0ID_INT32 : Nat := 6

def UA_NS0ID_STRING : Nat := 12

def UA_NS0ID_LOCALIZEDTEXT : Nat := 21

def UA_NS0ID_ENUMERATION : Nat := 29

def UA_NS0ID_ORGANIZES : Nat := 35

def UA_NS0ID_HASMODELLINGRULE : Nat := 37

def UA_NS0ID_GENERATESEVENT : Nat := 41

def UA_NS0ID_HASSUBTYPE : Nat := 45

def UA_NS0ID_HASPROPERTY : Nat := 46

def UA_NS0ID_BASEOBJECTTYPE : Nat := 58

def UA_NS0ID_PROPERTYTYPE : Nat := 68

def UA_NS0ID_MODELLINGRULE_MANDATORY : Nat := 78

def UA_NS0ID_OBJECTSFOLDER : Nat := 85

def UA_NS0ID_BASEEVENTTYPE : Nat := 2041

def UA_NS0_NAMESPACE : String := "http://opcfoundation.org/UA/"

def UA_PLUGIN_NAMESPACE : String := "http://www.axis.com/OpcUA/IOPorts/"

/-- Tag standing for the static `customUA_TYPES_IOP` data-type array of
ioports_ns.c (its chain is this array followed by whatever its `next`
pointer was linked to). -/
def customUA_TYPES_IOP_tag : Nat := 1

/-- Lines 478-486 of ioports_ns.c (with `UA_TYPES_IOP_COUNT = 2 > 0`):
link `customUA_TYPES_IOP` in front of the server's custom data-type chain
(`customUA_TYPES_IOP.next = config->customDataTypes`), snapshot the old
head pointer in the ledger (`rbd->saved_cdt = config->customDataTypes`),
and install the new head (`config->customDataTypes =
&customUA_TYPES_IOP`). -/
def ioports_ns_register_cdt (server : UA_Server) (rbd : rollback_data_t) :
    UA_Server × rollback_data_t :=
  ({ server with
      config :=
        { customDataTypes :=
            customUA_TYPES_IOP_tag :: server.config.customDataTypes } },
   { rbd with saved_cdt := server.config.customDataTypes })

/-- `ioports_add_port_state_type` (ioports_ns.c:80-143): the data-type node
for IOPortStateType and its EnumStrings property variable. -/
def ioports_add_port_state_type_steps (ns0 ns1 : Nat) : List BuildStep :=
  [BuildStep.addNode NodeKind.dataTypeNode ⟨ns1, UA_IOPID_IOPORTSTATETYPE⟩
     ⟨ns0, UA_NS0ID_ENUMERATION⟩,
   BuildStep.addNode NodeKind.variableNode
     ⟨ns1, UA_IOPID_IOPORTSTATETYPE_ENUMSTRINGS⟩
     ⟨ns1, UA_IOPID_IOPORTSTATETYPE⟩]

/-- `ioports_add_port_dir_type` (ioports_ns.c:145-207): the data-type node
for IOPortDirectionType and its EnumStrings property variable. -/
def ioports_add_port_dir_type_steps (ns0 ns1 : Nat) : List BuildStep :=
  [BuildStep.addNode NodeKind.dataTypeNode
     ⟨ns1, UA_IOPID_IOPORTDIRECTIONTYPE⟩ ⟨ns0, UA_NS0ID_ENUMERATION⟩,
   BuildStep.addNode NodeKind.variableNode
     ⟨ns1, UA_IOPID_IOPORTDIRECTIONTYPE_ENUMSTRINGS⟩
     ⟨ns1, UA_IOPID_IOPORTDIRECTIONTYPE⟩]

/-- `ioports_add_port_obj_type` (ioports_ns.c:297-419): the IOPortObjType
object-type node, then its eight property variables, each followed by a
has-modelling-rule reference. -/
def ioports_add_port_obj_type_steps (ns0 ns1 : Nat) : List BuildStep :=
  BuildStep.addNode NodeKind.objectTypeNode ⟨ns1, UA_IOPID_IOPORTOBJTYPE⟩
      ⟨ns0, UA_NS0ID_BASEOBJECTTYPE⟩ ::
    ([UA_IOPID_IOPORTOBJTYPE_CONFIGURABLE,
      UA_IOPID_IOPORTOBJTYPE_DIRECTION,
      UA_IOPID_IOPORTOBJTYPE_DISABLED,
      UA_IOPID_IOPORTOBJTYPE_INDEX,
      UA_IOPID_IOPORTOBJTYPE_NAME,
      UA_IOPID_IOPORTOBJTYPE_NORMALSTATE,
      UA_IOPID_IOPORTOBJTYPE_STATE,
      UA_IOPID_IOPORTOBJTYPE_USAGE].flatMap fun pid =>
      [BuildStep.addNode NodeKind.variableNode ⟨ns1, pid⟩
         ⟨ns1, UA_IOPID_IOPORTOBJTYPE⟩,
       BuildStep.addReference ⟨ns1, pid⟩
         ⟨ns0, UA_NS0ID_MODELLINGRULE_MANDATORY⟩])

/-- `ioports_add_port_event_type` (ioports_ns.c:215-295): the abstract
IOPEventType object type, a generates-event reference, then the three
event subtypes. -/
def ioports_add_port_event_type_steps (ns0 ns1 : Nat) : List BuildStep :=
  [BuildStep.addNode NodeKind.objectTypeNode ⟨ns1, UA_IOPID_IOPEVENTTYPE⟩
     ⟨ns0, UA_NS0ID_BASEEVENTTYPE⟩,
   BuildStep.addReference ⟨ns1, UA_IOPID_IOPEVENTTYPE⟩
     ⟨ns1, UA_IOPID_IOPORTOBJTYPE⟩,
   BuildStep.addNode NodeKind.objectTypeNode
     ⟨ns1, UA_IOPID_IOPDIRECTIONEVENTTYPE⟩ ⟨ns1, UA_IOPID_IOPEVENTTYPE⟩,
   BuildStep.addNode NodeKind.objectTypeNode
     ⟨ns1, UA_IOPID_IOPNORMALSTATEEVENTTYPE⟩ ⟨ns1, UA_IOPID_IOPEVENTTYPE⟩,
   BuildStep.addNode NodeKind.objectTypeNode
     ⟨ns1, UA_IOPID_IOPSTATEEVENTTYPE⟩ ⟨ns1, UA_IOPID_IOPEVENTTYPE⟩]

/-- `ioports_add_ioports_root` (ioports_ns.c:421-456): the root
"I/O Ports" object node (organized under the NS0 Objects folder) and the
write of its event-notifier attribute. -/
def ioports_add_ioports_root_steps (ns0 ns1 : Nat) : List BuildStep :=
  [BuildStep.addNode NodeKind.objectNode ⟨ns1, UA_IOPID_IOPORTS⟩
     ⟨0, UA_NS0ID_OBJECTSFOLDER⟩,
   BuildStep.writeEventNotifier ⟨ns1, UA_IOPID_IOPORTS⟩]

/-- `ioports_ns` (ioports_ns.c:458-512): register the two namespaces,
swap in the custom data-type chain (snapshotting the old head in the
ledger), then run the five builders in order with the early-exit
pattern. -/
def ioports_ns (env : StoreEnv) (allocOk : Bool) (server : UA_Server)
    (rbd : rollback_data_t) : RunResult :=
  let n0 := UA_Server_addNamespace server UA_NS0_NAMESPACE
  let n1 := UA_Server_addNamespace n0.2 UA_PLUGIN_NAMESPACE
  let ns0 := n0.1
  let ns1 := n1.1
  let swapped := ioports_ns_register_cdt n1.2 rbd
  run_build_steps env allocOk swapped.1 swapped.2
    (ioports_add_port_state_type_steps ns0 ns1 ++
     ioports_add_port_dir_type_steps ns0 ns1 ++
     ioports_add_port_obj_type_steps ns0 ns1 ++
     ioports_add_port_event_type_steps ns0 ns1 ++
     ioports_add_ioports_root_steps ns0 ns1)

/-! ## src/app/plugins/ioports/ioports_plugin.c -/

/-- The process-wide `plugin_t` singleton of ioports_plugin.c, reduced to
the fields the modelled control flow reads or writes.  Resource handles
(curl, credentials, event handlers) are tracked as booleans. -/
structure plugin_t where
  name : String
  ns : Nat
  rbd : Option rollback_data_t
  iop_ht : Option (List Nat)
  has_curl : Bool
  has_credentials : Bool
  has_iopstate_evh : Bool
  has_iopcfg_evh : Bool
  subscribed : Bool
deriving DecidableEq, Repr

/-- Process state visible to the ioports plugin: the global `plugin`
pointer (NULL = `none`) and the graph store. -/
structure GlobalState where
  plugin : Option plugin_t
  server : UA_Server
deriving DecidableEq, Repr

/-- Outcomes of the external collaborators `opc_ua_create` consults (curl,
VAPIX credential service and port enumeration, open62541 allocations, the
event subscription service), plus the store failure environment. -/
structure IopEnv where
  store : StoreEnv
  allocOk : Bool
  curlOk : Bool
  credsOk : Bool
  apiVerOk : Bool
  lifecycleCbStatus : UA_StatusCode
  ports : Option (List Nat)
  iopstateEvhOk : Bool
  iopcfgEvhOk : Bool
  subscribeOk : Bool

/-- `iop_ua_do_rollback` (ioports_plugin.c:2026-2035): asserts the global
plugin, its ledger and server are non-NULL (the arguments here) and hands
the ledger to `ua_utils_do_rollback`. -/
def iop_ua_do_rollback (env : StoreEnv) (server : UA_Server)
    (rbd : rollback_data_t) : RollbackResult :=
  ua_utils_do_rollback env server rbd

/-- `plugin_cleanup` (ioports_plugin.c:2037-2095): releases curl, the port
table, the event handlers and subscriptions, calls
`ua_utils_clear_rbd(&plugin->rbd)` and finally clears the global `plugin`
pointer.  It issues no graph-store call, so the store is untouched. -/
def plugin_cleanup (g : GlobalState) : GlobalState :=
  { g with plugin := none }

/-- The `err_out` label of `opc_ua_create` (ioports_plugin.c:2229-2241):
roll back any nodes created so far using the plugin's ledger (a rollback
failure is only logged), clean up the partially initialised plugin, and
return FALSE.  `evs` is the store-call trace accumulated before the
failure. -/
def opc_ua_create_err_out (env : IopEnv) (g : GlobalState)
    (evs : List StoreEvent) : Bool × GlobalState × List StoreEvent :=
  match g.plugin with
  | some p =>
      match p.rbd with
      | some rbd =>
          let rb := iop_ua_do_rollback env.store g.server rbd
          (false, plugin_cleanup { g with server := rb.server },
           evs ++ rb.events)
      | none => (false, plugin_cleanup g, evs)
  | none => (false, g, evs)

/-- `opc_ua_create` (ioports_plugin.c:2098-2242), the plugin's construct
entry point.  If the process-wide instance already exists the function
returns TRUE at once (line 2115-2117).  Otherwise it allocates the
singleton with a fresh empty ledger, initialises curl/credentials/API
version, populates the namespace via `ioports_ns`, resolves the namespace
index (failure here returns FALSE *without* `err_out`, line 2166),
installs the lifecycle callback, fetches the ports and adds one object
node per port (`iop_add_ioport_object`, requested id 0 = engine-assigned,
parent the "I/O Ports" root), allocates the two event handlers,
subscribes, and on full success clears the ledger (line 2225).  Any
failure after the singleton exists takes `err_out` (rollback + cleanup). -/
def opc_ua_create (env : IopEnv) (g : GlobalState) :
    Bool × GlobalState × List StoreEvent :=
  if g.plugin.isSome then
    (true, g, [])
  else
    let p0 : plugin_t :=
      { name := "opc-ioports-plugin"
        ns := 0
        rbd := some ⟨[], []⟩
        iop_ht := none
        has_curl := false
        has_credentials := false
        has_iopstate_evh := false
        has_iopcfg_evh := false
        subscribed := false }
    if !env.curlOk then
      opc_ua_create_err_out env { plugin := some p0, server := g.server } []
    else
      let p1 := { p0 with has_curl := true }
      if !env.credsOk then
        opc_ua_create_err_out env { plugin := some p1, server := g.server } []
      else
        let p2 := { p1 with has_credentials := true }
        if !env.apiVerOk then
          opc_ua_create_err_out env
            { plugin := some p2, server := g.server } []
        else
          let r := ioports_ns env.store env.allocOk g.server ⟨[], []⟩
          let p3 := { p2 with rbd := some r.rbd }
          let g3 : GlobalState := { plugin := some p3, server := r.server }
          if r.status ≠ UA_STATUSCODE_GOOD then
            opc_ua_create_err_out env g3 r.events
          else
            match r.server.namespaces.indexOf? UA_PLUGIN_NAMESPACE with
            | none => (false, g3, r.events)
            | some ns_idx =>
                let p4 := { p3 with ns := ns_idx }
                let g4 : GlobalState :=
                  { plugin := some p4, server := r.server }
                if env.lifecycleCbStatus ≠ UA_STATUSCODE_GOOD then
                  opc_ua_create_err_out env g4 r.events
                else
                  match env.ports with
                  | none => opc_ua_create_err_out env g4 r.events
                  | some ports =>
                      let p5 := { p4 with iop_ht := some ports }
                      let pr := run_build_steps env.store env.allocOk
                        r.server r.rbd
                        (ports.map fun _ =>
                          BuildStep.addNode NodeKind.objectNode ⟨ns_idx, 0⟩
                            ⟨ns_idx, UA_IOPID_IOPORTS⟩)
                      let p6 := { p5 with rbd := some pr.rbd }
                      let g6 : GlobalState :=
                        { plugin := some p6, server := pr.server }
                      let evs := r.events ++ pr.events
                      if pr.status ≠ UA_STATUSCODE_GOOD then
                        opc_ua_create_err_out env g6 evs
                      else if !env.iopstateEvhOk then
                        opc_ua_create_err_out env g6 evs
                      else
                        let p7 := { p6 with has_iopstate_evh := true }
                        if !env.iopcfgEvhOk then
                          opc_ua_create_err_out env
                            { plugin := some p7, server := pr.server } evs
                        else
                          let p8 := { p7 with has_iopcfg_evh := true }
                          if !env.subscribeOk then
                            opc_ua_create_err_out env
                              { plugin := some p8, server := pr.server } evs
                          else
                            let p9 :=
                              { p8 with
                                 subscribed := true
                                 rbd := ua_utils_clear_rbd p8.rbd }
                            (true,
                             { plugin := some p9, server := pr.server },
                             evs)

/-- `opc_ua_destroy` (ioports_plugin.c:2244-2252): a no-op when the
singleton was never created (or already torn down), otherwise
`plugin_cleanup`.  In either case no graph-store call is issued. -/
def opc_ua_destroy (g : GlobalState) : GlobalState :=
  match g.plugin with
  | none => g
  | some _ => plugin_cleanup g

/-! ## src/app/opcua_server.c (plugin host) -/

/-- Outcome of attempting to load and construct one plugin, as observed by
`init_ua_plugin`: dynamic loading failed (`plugin_load` returned NULL),
loading succeeded but the construct entry point returned FALSE, or both
succeeded. -/
inductive PluginOutcome where
  | loadFailed
  | createFailed
  | ok
deriving DecidableEq, Repr

/-- Environment for the host: what loading and constructing each named
plugin produces. -/
structure HostEnv where
  outcome : String → PluginOutcome

/-- The active-plugin set of `app_context_t` (`ctx->plugins`, a GSList
appended to in load order), tracked by plugin name. -/
structure app_context_t where
  plugins : List String
deriving DecidableEq, Repr

/-- `init_ua_plugin` (opcua_server.c:76-109): if `plugin_load` fails, log
and return without touching the active set; if the plugin's `ua_create`
returns FALSE, log and return without touching the active set; otherwise
`g_slist_append` the plugin to `ctx->plugins`. -/
def init_ua_plugin (env : HostEnv) (name : String) (ctx : app_context_t) :
    app_context_t :=
  match env.outcome name with
  | PluginOutcome.loadFailed => ctx
  | PluginOutcome.createFailed => ctx
  | PluginOutcome.ok => { ctx with plugins := ctx.plugins ++ [name] }

/-- The plugin-loading phase of `launch_ua_server` (opcua_server.c:136):
`g_slist_foreach(plugin_names, init_ua_plugin, ctx)` — every name is
visited in order regardless of earlier failures. -/
def launch_ua_server_load_plugins (env : HostEnv) (names : List String)
    (ctx : app_context_t) : app_context_t :=
  names.foldl (fun c n => init_ua_plugin env n c) ctx

/-! ## Trace projections and auxiliary definitions for the theorems -/

/-- The node ids created by the successful creation calls of a trace, in
call (= creation) order. -/
def successfulCreates (evs : List StoreEvent) : List UA_NodeId :=
  evs.filterMap fun e =>
    match e with
    | StoreEvent.createNode _ _ newId st =>
        if st = UA_STATUSCODE_GOOD then some newId else none
    | _ => none

/-- The node ids of the deletion calls of a trace, in call order. -/
def deleteEventIds (evs : List StoreEvent) : List UA_NodeId :=
  evs.filterMap fun e =>
    match e with
    | StoreEvent.deleteNode nid _ _ => some nid
    | _ => none

/-- Whether a store call is a deletion. -/
def isDeleteEvent (e : StoreEvent) : Bool :=
  match e with
  | StoreEvent.deleteNode _ _ _ => true
  | _ => false

/-- Whether a trace contains a deletion call. -/
def hasDeleteEvent (evs : List StoreEvent) : Bool :=
  evs.any isDeleteEvent

/-- The rollback-aware creation wrapper of `ua_utils.c` for a node kind. -/
def add_node_rb_for (k : NodeKind) :
    StoreEnv → Bool → UA_Server → UA_NodeId → UA_NodeId → rollback_data_t →
    Bool → FacadeResult :=
  match k with
  | NodeKind.objectNode => UA_Server_addObjectNode_rb
  | NodeKind.variableNode => UA_Server_addVariableNode_rb
  | NodeKind.dataTypeNode => UA_Server_addDataTypeNode_rb
  | NodeKind.objectTypeNode => UA_Server_addObjectTypeNode_rb
  | NodeKind.methodNode => UA_Server_addMethodNode_rb

/-! ## Concrete fixtures for witnesses and counterexamples -/

/-- Environment in which the graph store injects no failures. -/
def storeOkEnv : StoreEnv :=
  { createFail := fun _ _ => UA_STATUSCODE_GOOD
    deleteFail := fun _ => UA_STATUSCODE_GOOD
    addRefFail := fun _ _ => UA_STATUSCODE_GOOD
    writeNotifierFail := fun _ => UA_STATUSCODE_GOOD }

/-- Environment in which the graph store refuses every delete with
`BadInternalError`. -/
def storeDeleteRefusedEnv : StoreEnv :=
  { storeOkEnv with deleteFail := fun _ => UA_STATUSCODE_BADINTERNALERROR }

/-- Environment in which the graph store refuses to delete exactly the
node (1, 22), with `BadInternalError`. -/
def storeDeleteBad22Env : StoreEnv :=
  { storeOkEnv with
     deleteFail := fun id =>
       if id = ⟨1, 22⟩ then UA_STATUSCODE_BADINTERNALERROR
       else UA_STATUSCODE_GOOD }

/-- Host environment in which one plugin's construct entry point fails
and every other plugin loads and constructs fine. -/
def hostEnvOneBad : HostEnv :=
  ⟨fun n =>
    if n = "libopcua-bad.so" then PluginOutcome.createFailed
    else PluginOutcome.ok⟩

/-- A small server state: the NS0 nodes the ioports builders reference as
parents (ObjectsFolder, Enumeration, BaseObjectType, BaseEventType), the
NS0 namespace URI, and a NULL custom data-type chain. -/
def baseServer : UA_Server :=
  { config := ⟨[]⟩
    nodes := [⟨0, 85⟩, ⟨0, 29⟩, ⟨0, 58⟩, ⟨0, 2041⟩]
    namespaces := [UA_NS0_NAMESPACE]
    nodeIdCounter := 100 }

/-- Plugin-environment in which every external collaborator succeeds and
the device reports two I/O ports. -/
def iopOkEnv : IopEnv :=
  { store := storeOkEnv
    allocOk := true
    curlOk := true
    credsOk := true
    apiVerOk := true
    lifecycleCbStatus := UA_STATUSCODE_GOOD
    ports := some [0, 1]
    iopstateEvhOk := true
    iopcfgEvhOk := true
    subscribeOk := true }

/-- A fully initialised plugin singleton, as left behind by a successful
`opc_ua_create` (ledger cleared, namespace index 1, two ports). -/
def builtPlugin : plugin_t :=
  { name := "opc-ioports-plugin"
    ns := 1
    rbd := none
    iop_ht := some [0, 1]
    has_curl := true
    has_credentials := true
    has_iopstate_evh := true
    has_iopcfg_evh := true
    subscribed := true }

/-! ## Helper lemmas -/

/-- When the store refuses no delete and the ledger entries form a prefix
of the node set (in order), the deletion loop succeeds, removes exactly
those entries, and issues one successful delete call per entry in ledger
order. -/
theorem rollback_delete_loop_all_good (env : StoreEnv)
    (ids : List UA_NodeId) :
    ∀ (server : UA_Server) (rest : List UA_NodeId),
      (∀ id ∈ ids, env.deleteFail id = UA_STATUSCODE_GOOD) →
      server.nodes = ids ++ rest →
      rollback_delete_loop env server ids =
        ⟨true, { server with nodes := rest }, none,
         ids.map fun id =>
           StoreEvent.deleteNode id true UA_STATUSCODE_GOOD⟩ := by
  induction ids with
  | nil =>
      intro server rest _ hnodes
      simp only [List.nil_append] at hnodes
      simp [rollback_delete_loop, ← hnodes]
  | cons nid ids ih =>
      intro server rest hgood hnodes
      have hdel : env.deleteFail nid = UA_STATUSCODE_GOOD :=
        hgood nid (List.mem_cons_self nid ids)
      have h1 : delete_node env server nid =
          (UA_STATUSCODE_GOOD, { server with nodes := ids ++ rest }) := by
        simp [delete_node, hdel, hnodes]
      simp only [rollback_delete_loop, h1, ne_eq, not_true_eq_false,
        if_false]
      rw [ih { server with nodes := ids ++ rest } rest
        (fun id h => hgood id (List.mem_cons_of_mem nid h)) rfl]
      simp

/-- Every call the deletion loop issues is a delete call. -/
theorem rollback_delete_loop_events_delete (env : StoreEnv)
    (ids : List UA_NodeId) :
    ∀ (server : UA_Server),
      ∀ e ∈ (rollback_delete_loop env server ids).events,
        isDeleteEvent e = true := by
  induction ids with
  | nil => intro server e he; simp [rollback_delete_loop] at he
  | cons nid ids ih =>
      intro server e he
      simp only [rollback_delete_loop] at he
      by_cases h : (delete_node env server nid).1 = UA_STATUSCODE_GOOD
      · simp only [h, ne_eq, not_true_eq_false, if_false,
          List.mem_cons] at he
        rcases he with he | he
        · subst he; rfl
        · exact ih (delete_node env server nid).2 e he
      · simp only [ne_eq, h, not_false_eq_true, if_true,
          List.mem_singleton] at he
        subst he; rfl

/-- The deletion loop never touches the server configuration. -/
theorem rollback_delete_loop_config (env : StoreEnv)
    (ids : List UA_NodeId) :
    ∀ (server : UA_Server),
      (rollback_delete_loop env server ids).server.config =
        server.config := by
  induction ids with
  | nil => intro server; simp [rollback_delete_loop]
  | cons nid ids ih =>
      intro server
      have hconf : (delete_node env server nid).2.config = server.config := by
        unfold delete_node
        split
        · rfl
        · split
          · rfl
          · rfl
      simp only [rollback_delete_loop]
      by_cases h : (delete_node env server nid).1 = UA_STATUSCODE_GOOD
      · simp only [h, ne_eq, not_true_eq_false, if_false]
        rw [ih (delete_node env server nid).2, hconf]
      · simp only [ne_eq, h, not_false_eq_true, if_true]
        exact hconf

/-- A node id not recorded in the ledger survives the deletion loop. -/
theorem rollback_delete_loop_mem (env : StoreEnv) (ids : List UA_NodeId) :
    ∀ (server : UA_Server) (x : UA_NodeId),
      x ∉ ids → x ∈ server.nodes →
      x ∈ (rollback_delete_loop env server ids).server.nodes := by
  induction ids with
  | nil => intro server x _ hx; simpa [rollback_delete_loop] using hx
  | cons nid ids ih =>
      intro server x hnot hx
      have hxnid : x ≠ nid := fun h => hnot (h ▸ List.mem_cons_self nid ids)
      have hxids : x ∉ ids := fun h => hnot (List.mem_cons_of_mem nid h)
      have hmem : x ∈ (delete_node env server nid).2.nodes := by
        unfold delete_node
        split
        · exact hx
        · split
          · exact List.mem_erase_of_ne hxnid |>.mpr hx
          · exact hx
      simp only [rollback_delete_loop]
      by_cases h : (delete_node env server nid).1 = UA_STATUSCODE_GOOD
      · simp only [h, ne_eq, not_true_eq_false, if_false]
        exact ih (delete_node env server nid).2 x hxids hmem
      · simpa [h] using hmem

/-- When the first `pre` ledger entries delete cleanly but the store
refuses `bad`, the loop stops at `bad`: it returns FALSE, sets a `GError`
whose message holds only the status name, removes exactly the `pre`
entries, and issues no call for any entry after `bad`. -/
theorem rollback_delete_loop_first_fail (env : StoreEnv)
    (pre : List UA_NodeId) (bad : UA_NodeId) (post : List UA_NodeId) :
    ∀ (server : UA_Server) (rest : List UA_NodeId),
      (∀ id ∈ pre, env.deleteFail id = UA_STATUSCODE_GOOD) →
      server.nodes = pre ++ rest →
      env.deleteFail bad ≠ UA_STATUSCODE_GOOD →
      rollback_delete_loop env server (pre ++ bad :: post) =
        ⟨false, { server with nodes := rest },
         some ⟨-1, "UA_Server_deleteNode() failed: " ++
           UA_StatusCode_name (env.deleteFail bad)⟩,
         (pre.map fun id =>
           StoreEvent.deleteNode id true UA_STATUSCODE_GOOD) ++
           [StoreEvent.deleteNode bad true (env.deleteFail bad)]⟩ := by
  induction pre with
  | nil =>
      intro server rest _ hnodes hbad
      have h1 : delete_node env server bad = (env.deleteFail bad, server) := by
        simp [delete_node, hbad]
      simp only [List.nil_append] at hnodes
      simp [rollback_delete_loop, h1, hbad, ← hnodes]
  | cons nid pre ih =>
      intro server rest hgood hnodes hbad
      have hdel : env.deleteFail nid = UA_STATUSCODE_GOOD :=
        hgood nid (List.mem_cons_self nid pre)
      have h1 : delete_node env server nid =
          (UA_STATUSCODE_GOOD, { server with nodes := pre ++ rest }) := by
        simp [delete_node, hdel, hnodes]
      simp only [List.cons_append, rollback_delete_loop, h1, ne_eq,
        not_true_eq_false, if_false, List.append_eq]
      rw [ih { server with nodes := pre ++ rest } rest
        (fun id h => hgood id (List.mem_cons_of_mem nid h)) rfl hbad]
      simp

/-- Rollback with a fully cooperative store: returns TRUE, the node set
loses exactly the recorded ids, and the delete calls list the recorded ids
in ledger (= reverse creation) order. -/
theorem ua_utils_do_rollback_all_good (env : StoreEnv) (server : UA_Server)
    (rbd : rollback_data_t) (rest : List UA_NodeId)
    (hgood : ∀ id ∈ rbd.node_ids, env.deleteFail id = UA_STATUSCODE_GOOD)
    (hnodes : server.nodes = rbd.node_ids ++ rest) :
    (ua_utils_do_rollback env server rbd).ret = true ∧
    (ua_utils_do_rollback env server rbd).server.nodes = rest ∧
    deleteEventIds (ua_utils_do_rollback env server rbd).events =
      rbd.node_ids := by
  unfold ua_utils_do_rollback
  by_cases hc : rbd.saved_cdt = []
  · simp only [hc, ne_eq, not_true_eq_false, if_false]
    rw [rollback_delete_loop_all_good env rbd.node_ids server rest hgood
      hnodes]
    refine ⟨rfl, rfl, ?_⟩
    simp [deleteEventIds, List.filterMap_map, Function.comp_def]
  · simp only [ne_eq, hc, not_false_eq_true, if_true]
    rw [rollback_delete_loop_all_good env rbd.node_ids
      { server with config := { customDataTypes := rbd.saved_cdt } } rest
      hgood hnodes]
    refine ⟨rfl, rfl, ?_⟩
    simp [deleteEventIds, List.filterMap_map, Function.comp_def]

/-- The custom data-type chain after rollback: the snapshot when one was
saved (non-NULL), otherwise whatever the server already had. -/
theorem ua_utils_do_rollback_cdt (env : StoreEnv) (server : UA_Server)
    (rbd : rollback_data_t) :
    (ua_utils_do_rollback env server rbd).server.config.customDataTypes =
      if rbd.saved_cdt ≠ [] then rbd.saved_cdt
      else server.config.customDataTypes := by
  unfold ua_utils_do_rollback
  by_cases hc : rbd.saved_cdt = []
  · simp only [hc, ne_eq, not_true_eq_false, if_false]
    rw [rollback_delete_loop_config]
  · simp only [ne_eq, hc, not_false_eq_true, if_true]
    rw [rollback_delete_loop_config]

/-- A node id not recorded in the ledger survives rollback. -/
theorem ua_utils_do_rollback_mem (env : StoreEnv) (server : UA_Server)
    (rbd : rollback_data_t) (x : UA_NodeId) (hx : x ∉ rbd.node_ids)
    (hmem : x ∈ server.nodes) :
    x ∈ (ua_utils_do_rollback env server rbd).server.nodes := by
  unfold ua_utils_do_rollback
  by_cases hc : rbd.saved_cdt = []
  · simp only [hc, ne_eq, not_true_eq_false, if_false]
    exact rollback_delete_loop_mem env rbd.node_ids server x hx hmem
  · simp only [ne_eq, hc, not_false_eq_true, if_true]
    exact rollback_delete_loop_mem env rbd.node_ids
      { server with config := { customDataTypes := rbd.saved_cdt } } x hx hmem

/-- Shape of a successful store creation: the new id is prepended to the
node set and returned. -/
theorem create_node_good (env : StoreEnv) (server : UA_Server)
    (k : NodeKind) (req parent : UA_NodeId)
    (h : (create_node env server k req parent).1 = UA_STATUSCODE_GOOD) :
    (create_node env server k req parent).2.1.nodes =
      (create_node env server k req parent).2.2 :: server.nodes ∧
    (create_node env server k req parent).2.1.config = server.config := by
  by_cases h1 :
      (if req.identifier = 0 then
        (⟨req.namespaceIndex, server.nodeIdCounter⟩ : UA_NodeId)
      else req) ∈ server.nodes
  · simp only [create_node, h1, if_true] at h
    exact absurd h (by decide)
  · by_cases h2 : parent ∈ server.nodes
    · by_cases h3 : env.createFail k req = UA_STATUSCODE_GOOD
      · simp [create_node, h1, h2, h3]
      · simp only [create_node, h1, if_false, h2, not_true_eq_false, ne_eq,
          h3, not_false_eq_true, if_true] at h
    · simp only [create_node, h1, if_false, h2, not_false_eq_true,
        if_true] at h
      exact absurd h (by decide)

/-- A rejected store creation leaves the store untouched. -/
theorem create_node_fail (env : StoreEnv) (server : UA_Server)
    (k : NodeKind) (req parent : UA_NodeId)
    (h : (create_node env server k req parent).1 ≠ UA_STATUSCODE_GOOD) :
    (create_node env server k req parent).2.1 = server := by
  by_cases h1 :
      (if req.identifier = 0 then
        (⟨req.namespaceIndex, server.nodeIdCounter⟩ : UA_NodeId)
      else req) ∈ server.nodes
  · simp [create_node, h1]
  · by_cases h2 : parent ∈ server.nodes
    · by_cases h3 : env.createFail k req = UA_STATUSCODE_GOOD
      · exact absurd (by simp [create_node, h1, h2, h3]) h
      · simp [create_node, h1, h2, h3]
    · simp [create_node, h1, h2]

/-- A wrapper whose underlying creation was rejected returns the store's
status unchanged and leaves ledger and store exactly as they were. -/
theorem addNode_rb_core_fail (k : NodeKind) (env : StoreEnv)
    (allocOk : Bool) (server : UA_Server) (req parent : UA_NodeId)
    (rbd : rollback_data_t) (wantOut : Bool)
    (h : (create_node env server k req parent).1 ≠ UA_STATUSCODE_GOOD) :
    (addNode_rb_core k env allocOk server req parent rbd wantOut).status =
      (create_node env server k req parent).1 ∧
    (addNode_rb_core k env allocOk server req parent rbd wantOut).rbd =
      rbd ∧
    (addNode_rb_core k env allocOk server req parent rbd wantOut).server =
      server := by
  have hs := create_node_fail env server k req parent h
  simp [addNode_rb_core, h, hs]

/-- The ledger-node-set invariant is preserved by one wrapper call, as
long as no ledger append failed (either allocations work, or the call
returned GOOD). -/
theorem addNode_rb_core_inv (k : NodeKind) (env : StoreEnv)
    (allocOk : Bool) (server : UA_Server) (req parent : UA_NodeId)
    (rbd : rollback_data_t) (wantOut : Bool) (base : List UA_NodeId)
    (hbase : server.nodes = rbd.node_ids ++ base)
    (hgood : allocOk = true ∨
      (addNode_rb_core k env allocOk server req parent rbd wantOut).status =
        UA_STATUSCODE_GOOD) :
    (addNode_rb_core k env allocOk server req parent rbd wantOut).server.nodes
      =
    (addNode_rb_core k env allocOk server req parent rbd wantOut).rbd.node_ids
      ++ base := by
  by_cases hc : (create_node env server k req parent).1 = UA_STATUSCODE_GOOD
  · obtain ⟨hn, _⟩ := create_node_good env server k req parent hc
    cases allocOk with
    | true => simp [addNode_rb_core, hc, add_nodeid_to_rbd, hn, hbase]
    | false =>
        rcases hgood with h | h
        · exact absurd h (by decide)
        · exfalso
          simp only [addNode_rb_core, hc, if_true, add_nodeid_to_rbd,
            Bool.false_eq_true, if_false] at h
          exact absurd h (by decide)
  · have hs := create_node_fail env server k req parent hc
    simp [addNode_rb_core, hc, hs, hbase]

/-- A wrapper call never touches the registry snapshot of the ledger. -/
theorem addNode_rb_core_saved_cdt (k : NodeKind) (env : StoreEnv)
    (allocOk : Bool) (server : UA_Server) (req parent : UA_NodeId)
    (rbd : rollback_data_t) (wantOut : Bool) :
    (addNode_rb_core k env allocOk server req parent rbd
      wantOut).rbd.saved_cdt = rbd.saved_cdt := by
  by_cases hc : (create_node env server k req parent).1 = UA_STATUSCODE_GOOD
  · cases allocOk <;> simp [addNode_rb_core, hc, add_nodeid_to_rbd]
  · simp [addNode_rb_core, hc]

/-- A wrapper call never touches the server configuration. -/
theorem addNode_rb_core_config (k : NodeKind) (env : StoreEnv)
    (allocOk : Bool) (server : UA_Server) (req parent : UA_NodeId)
    (rbd : rollback_data_t) (wantOut : Bool) :
    (addNode_rb_core k env allocOk server req parent rbd
      wantOut).server.config = server.config := by
  by_cases hc : (create_node env server k req parent).1 = UA_STATUSCODE_GOOD
  · have := (create_node_good env server k req parent hc).2
    simp [addNode_rb_core, hc, this]
  · have hs := create_node_fail env server k req parent hc
    simp [addNode_rb_core, hc, hs]

/-- A wrapper call issues exactly one creation call, whose recorded new id
is the one appended to the ledger when it succeeds. -/
theorem addNode_rb_core_creates (k : NodeKind) (env : StoreEnv)
    (server : UA_Server) (req parent : UA_NodeId) (rbd : rollback_data_t)
    (wantOut : Bool) :
    (addNode_rb_core k env true server req parent rbd wantOut).rbd.node_ids
      =
    (successfulCreates
      (addNode_rb_core k env true server req parent rbd
        wantOut).events).reverse ++ rbd.node_ids := by
  by_cases hc : (create_node env server k req parent).1 = UA_STATUSCODE_GOOD
  · simp [addNode_rb_core, hc, add_nodeid_to_rbd, successfulCreates]
  · simp [addNode_rb_core, hc, successfulCreates]

/-- A wrapper call never issues a delete call. -/
theorem addNode_rb_core_no_delete (k : NodeKind) (env : StoreEnv)
    (allocOk : Bool) (server : UA_Server) (req parent : UA_NodeId)
    (rbd : rollback_data_t) (wantOut : Bool) :
    ∀ e ∈ (addNode_rb_core k env allocOk server req parent rbd
      wantOut).events, isDeleteEvent e = false := by
  intro e he
  by_cases hc : (create_node env server k req parent).1 = UA_STATUSCODE_GOOD
  · simp only [addNode_rb_core, hc, if_true, List.mem_singleton] at he
    subst he; rfl
  · simp only [addNode_rb_core, hc, if_false, List.mem_singleton] at he
    subst he; rfl

/-- Unfolding a builder run whose first step succeeded. -/
theorem run_build_steps_cons_good (env : StoreEnv) (allocOk : Bool)
    (server : UA_Server) (rbd : rollback_data_t) (step : BuildStep)
    (rest : List BuildStep)
    (hr : (run_build_step env allocOk server rbd step).status =
      UA_STATUSCODE_GOOD) :
    run_build_steps env allocOk server rbd (step :: rest) =
      ⟨(run_build_steps env allocOk
          (run_build_step env allocOk server rbd step).server
          (run_build_step env allocOk server rbd step).rbd rest).status,
       (run_build_steps env allocOk
          (run_build_step env allocOk server rbd step).server
          (run_build_step env allocOk server rbd step).rbd rest).server,
       (run_build_steps env allocOk
          (run_build_step env allocOk server rbd step).server
          (run_build_step env allocOk server rbd step).rbd rest).rbd,
       (run_build_step env allocOk server rbd step).events ++
         (run_build_steps env allocOk
            (run_build_step env allocOk server rbd step).server
            (run_build_step env allocOk server rbd step).rbd rest).events⟩ :=
  by simp [run_build_steps, hr]

/-- Unfolding a builder run whose first step failed (early exit). -/
theorem run_build_steps_cons_fail (env : StoreEnv) (allocOk : Bool)
    (server : UA_Server) (rbd : rollback_data_t) (step : BuildStep)
    (rest : List BuildStep)
    (hr : (run_build_step env allocOk server rbd step).status ≠
      UA_STATUSCODE_GOOD) :
    run_build_steps env allocOk server rbd (step :: rest) =
      ⟨(run_build_step env allocOk server rbd step).status,
       (run_build_step env allocOk server rbd step).server,
       (run_build_step env allocOk server rbd step).rbd,
       (run_build_step env allocOk server rbd step).events⟩ :=
  by simp [run_build_steps, hr]

/-- One builder step preserves the ledger-node-set invariant (as long as
no ledger append failed). -/
theorem run_build_step_inv (env : StoreEnv) (allocOk : Bool)
    (server : UA_Server) (rbd : rollback_data_t) (base : List UA_NodeId)
    (step : BuildStep) (hbase : server.nodes = rbd.node_ids ++ base)
    (hgood : allocOk = true ∨
      (run_build_step env allocOk server rbd step).status =
        UA_STATUSCODE_GOOD) :
    (run_build_step env allocOk server rbd step).server.nodes =
      (run_build_step env allocOk server rbd step).rbd.node_ids ++ base := by
  cases step with
  | addNode k req parent =>
      cases k <;>
        simp only [run_build_step, UA_Server_addObjectNode_rb,
          UA_Server_addVariableNode_rb, UA_Server_addDataTypeNode_rb,
          UA_Server_addObjectTypeNode_rb, UA_Server_addMethodNode_rb]
          at hgood ⊢ <;>
        exact addNode_rb_core_inv _ env allocOk server req parent rbd false
          base hbase hgood
  | addReference s t => simpa [run_build_step] using hbase
  | writeEventNotifier n => simpa [run_build_step] using hbase

/-- One builder step never touches the registry snapshot. -/
theorem run_build_step_saved_cdt (env : StoreEnv) (allocOk : Bool)
    (server : UA_Server) (rbd : rollback_data_t) (step : BuildStep) :
    (run_build_step env allocOk server rbd step).rbd.saved_cdt =
      rbd.saved_cdt := by
  cases step with
  | addNode k req parent =>
      cases k <;>
        simp only [run_build_step, UA_Server_addObjectNode_rb,
          UA_Server_addVariableNode_rb, UA_Server_addDataTypeNode_rb,
          UA_Server_addObjectTypeNode_rb, UA_Server_addMethodNode_rb] <;>
        exact addNode_rb_core_saved_cdt _ env allocOk server req parent rbd
          false
  | addReference s t => rfl
  | writeEventNotifier n => rfl

/-- One builder step never touches the server configuration. -/
theorem run_build_step_config (env : StoreEnv) (allocOk : Bool)
    (server : UA_Server) (rbd : rollback_data_t) (step : BuildStep) :
    (run_build_step env allocOk server rbd step).server.config =
      server.config := by
  cases step with
  | addNode k req parent =>
      cases k <;>
        simp only [run_build_step, UA_Server_addObjectNode_rb,
          UA_Server_addVariableNode_rb, UA_Server_addDataTypeNode_rb,
          UA_Server_addObjectTypeNode_rb, UA_Server_addMethodNode_rb] <;>
        exact addNode_rb_core_config _ env allocOk server req parent rbd
          false
  | addReference s t => rfl
  | writeEventNotifier n => rfl

/-- One builder step records in the ledger exactly the ids of its
successful creations (ledger append failures excluded). -/
theorem run_build_step_creates (env : StoreEnv) (server : UA_Server)
    (rbd : rollback_data_t) (step : BuildStep) :
    (run_build_step env true server rbd step).rbd.node_ids =
      (successfulCreates
        (run_build_step env true server rbd step).events).reverse ++
        rbd.node_ids := by
  cases step with
  | addNode k req parent =>
      cases k <;>
        simp only [run_build_step, UA_Server_addObjectNode_rb,
          UA_Server_addVariableNode_rb, UA_Server_addDataTypeNode_rb,
          UA_Server_addObjectTypeNode_rb, UA_Server_addMethodNode_rb] <;>
        exact addNode_rb_core_creates _ env server req parent rbd false
  | addReference s t => simp [run_build_step, successfulCreates]
  | writeEventNotifier n => simp [run_build_step, successfulCreates]

/-- One builder step never issues a delete call. -/
theorem run_build_step_no_delete (env : StoreEnv) (allocOk : Bool)
    (server : UA_Server) (rbd : rollback_data_t) (step : BuildStep) :
    ∀ e ∈ (run_build_step env allocOk server rbd step).events,
      isDeleteEvent e = false := by
  cases step with
  | addNode k req parent =>
      cases k <;>
        simp only [run_build_step, UA_Server_addObjectNode_rb,
          UA_Server_addVariableNode_rb, UA_Server_addDataTypeNode_rb,
          UA_Server_addObjectTypeNode_rb, UA_Server_addMethodNode_rb] <;>
        exact addNode_rb_core_no_delete _ env allocOk server req parent rbd
          false
  | addReference s t =>
      intro e he
      simp only [run_build_step, List.mem_singleton] at he
      subst he; rfl
  | writeEventNotifier n =>
      intro e he
      simp only [run_build_step, List.mem_singleton] at he
      subst he; rfl

/-- A builder run preserves the ledger-node-set invariant (as long as no
ledger append failed: either allocations work, or the run returned
GOOD). -/
theorem run_build_steps_inv (env : StoreEnv) (allocOk : Bool)
    (steps : List BuildStep) :
    ∀ (server : UA_Server) (rbd : rollback_data_t) (base : List UA_NodeId),
      server.nodes = rbd.node_ids ++ base →
      (allocOk = true ∨
        (run_build_steps env allocOk server rbd steps).status =
          UA_STATUSCODE_GOOD) →
      (run_build_steps env allocOk server rbd steps).server.nodes =
        (run_build_steps env allocOk server rbd steps).rbd.node_ids ++
          base := by
  induction steps with
  | nil => intro server rbd base hbase _; simpa [run_build_steps] using hbase
  | cons step rest ih =>
      intro server rbd base hbase hgood
      by_cases hr : (run_build_step env allocOk server rbd step).status =
          UA_STATUSCODE_GOOD
      · rw [run_build_steps_cons_good env allocOk server rbd step rest hr]
        rw [run_build_steps_cons_good env allocOk server rbd step rest hr]
          at hgood
        exact ih _ _ base
          (run_build_step_inv env allocOk server rbd base step hbase
            (Or.inr hr)) hgood
      · rw [run_build_steps_cons_fail env allocOk server rbd step rest hr]
        rw [run_build_steps_cons_fail env allocOk server rbd step rest hr]
          at hgood
        exact run_build_step_inv env allocOk server rbd base step hbase hgood

/-- A builder run never touches the registry snapshot. -/
theorem run_build_steps_saved_cdt (env : StoreEnv) (allocOk : Bool)
    (steps : List BuildStep) :
    ∀ (server : UA_Server) (rbd : rollback_data_t),
      (run_build_steps env allocOk server rbd steps).rbd.saved_cdt =
        rbd.saved_cdt := by
  induction steps with
  | nil => intro server rbd; rfl
  | cons step rest ih =>
      intro server rbd
      by_cases hr : (run_build_step env allocOk server rbd step).status =
          UA_STATUSCODE_GOOD
      · rw [run_build_steps_cons_good env allocOk server rbd step rest hr]
        rw [ih, run_build_step_saved_cdt]
      · rw [run_build_steps_cons_fail env allocOk server rbd step rest hr]
        exact run_build_step_saved_cdt env allocOk server rbd step

/-- A builder run never touches the server configuration. -/
theorem run_build_steps_config (env : StoreEnv) (allocOk : Bool)
    (steps : List BuildStep) :
    ∀ (server : UA_Server) (rbd : rollback_data_t),
      (run_build_steps env allocOk server rbd steps).server.config =
        server.config := by
  induction steps with
  | nil => intro server rbd; rfl
  | cons step rest ih =>
      intro server rbd
      by_cases hr : (run_build_step env allocOk server rbd step).status =
          UA_STATUSCODE_GOOD
      · rw [run_build_steps_cons_good env allocOk server rbd step rest hr]
        rw [ih, run_build_step_config]
      · rw [run_build_steps_cons_fail env allocOk server rbd step rest hr]
        exact run_build_step_config env allocOk server rbd step

/-- A builder run records in the ledger exactly the ids of its successful
creations, most recent first (with working allocations). -/
theorem run_build_steps_creates (env : StoreEnv) (steps : List BuildStep) :
    ∀ (server : UA_Server) (rbd : rollback_data_t),
      (run_build_steps env true server rbd steps).rbd.node_ids =
        (successfulCreates
          (run_build_steps env true server rbd steps).events).reverse ++
          rbd.node_ids := by
  induction steps with
  | nil => intro server rbd; simp [run_build_steps, successfulCreates]
  | cons step rest ih =>
      intro server rbd
      by_cases hr : (run_build_step env true server rbd step).status =
          UA_STATUSCODE_GOOD
      · rw [run_build_steps_cons_good env true server rbd step rest hr]
        rw [ih, run_build_step_creates env server rbd step]
        simp [successfulCreates, List.filterMap_append]
      · rw [run_build_steps_cons_fail env true server rbd step rest hr]
        exact run_build_step_creates env server rbd step

/-- A builder run never issues a delete call. -/
theorem run_build_steps_no_delete (env : StoreEnv) (allocOk : Bool)
    (steps : List BuildStep) :
    ∀ (server : UA_Server) (rbd : rollback_data_t),
      ∀ e ∈ (run_build_steps env allocOk server rbd steps).events,
        isDeleteEvent e = false := by
  induction steps with
  | nil => intro server rbd e he; simp [run_build_steps] at he
  | cons step rest ih =>
      intro server rbd e he
      by_cases hr : (run_build_step env allocOk server rbd step).status =
          UA_STATUSCODE_GOOD
      · rw [run_build_steps_cons_good env allocOk server rbd step rest hr]
          at he
        simp only [List.mem_append] at he
        rcases he with he | he
        · exact run_build_step_no_delete env allocOk server rbd step e he
        · exact ih _ _ e he
      · rw [run_build_steps_cons_fail env allocOk server rbd step rest hr]
          at he
        exact run_build_step_no_delete env allocOk server rbd step e he

/-- The host's plugin-loading phase appends to the active set exactly the
plugins whose load and construction both succeeded, in order. -/
theorem launch_load_filter (env : HostEnv) (names : List String) :
    ∀ ctx : app_context_t,
      launch_ua_server_load_plugins env names ctx =
        ⟨ctx.plugins ++
          names.filter fun n => decide (env.outcome n = PluginOutcome.ok)⟩ := by
  induction names with
  | nil => intro ctx; simp [launch_ua_server_load_plugins]
  | cons n ns ih =>
      intro ctx
      have hstep : launch_ua_server_load_plugins env (n :: ns) ctx =
          launch_ua_server_load_plugins env ns (init_ua_plugin env n ctx) :=
        rfl
      rw [hstep, ih (init_ua_plugin env n ctx)]
      cases ho : env.outcome n <;>
        simp [init_ua_plugin, ho, List.filter_cons]

/-! ## Claim theorems -/

/-- C1 counterexample: one facade call that succeeds, then one facade call
that fails because the ledger append runs out of memory after the store
already created the node (1, 12).  The claim's scenario holds (N successes
followed by one failing call), the Rollback Executor reports success, yet
the resulting node set differs from the original: node (1, 12) was created
by the sequence and survives, because it was never recorded. -/
theorem C1_counterexample :
    (run_build_steps storeOkEnv true baseServer ⟨[], []⟩
      [BuildStep.addNode NodeKind.objectNode ⟨1, 11⟩ ⟨0, 85⟩]).status =
      UA_STATUSCODE_GOOD ∧
    (UA_Server_addObjectNode_rb storeOkEnv false
      (run_build_steps storeOkEnv true baseServer ⟨[], []⟩
        [BuildStep.addNode NodeKind.objectNode ⟨1, 11⟩ ⟨0, 85⟩]).server
      ⟨1, 12⟩ ⟨0, 85⟩
      (run_build_steps storeOkEnv true baseServer ⟨[], []⟩
        [BuildStep.addNode NodeKind.objectNode ⟨1, 11⟩ ⟨0, 85⟩]).rbd
      false).status ≠ UA_STATUSCODE_GOOD ∧
    (ua_utils_do_rollback storeOkEnv
      (UA_Server_addObjectNode_rb storeOkEnv false
        (run_build_steps storeOkEnv true baseServer ⟨[], []⟩
          [BuildStep.addNode NodeKind.objectNode ⟨1, 11⟩ ⟨0, 85⟩]).server
        ⟨1, 12⟩ ⟨0, 85⟩
        (run_build_steps storeOkEnv true baseServer ⟨[], []⟩
          [BuildStep.addNode NodeKind.objectNode ⟨1, 11⟩ ⟨0, 85⟩]).rbd
        false).server
      (UA_Server_addObjectNode_rb storeOkEnv false
        (run_build_steps storeOkEnv true baseServer ⟨[], []⟩
          [BuildStep.addNode NodeKind.objectNode ⟨1, 11⟩ ⟨0, 85⟩]).server
        ⟨1, 12⟩ ⟨0, 85⟩
        (run_build_steps storeOkEnv true baseServer ⟨[], []⟩
          [BuildStep.addNode NodeKind.objectNode ⟨1, 11⟩ ⟨0, 85⟩]).rbd
        false).rbd).ret = true ∧
    (⟨1, 12⟩ : UA_NodeId) ∈
      (ua_utils_do_rollback storeOkEnv
        (UA_Server_addObjectNode_rb storeOkEnv false
          (run_build_steps storeOkEnv true baseServer ⟨[], []⟩
            [BuildStep.addNode NodeKind.objectNode ⟨1, 11⟩ ⟨0, 85⟩]).server
          ⟨1, 12⟩ ⟨0, 85⟩
          (run_build_steps storeOkEnv true baseServer ⟨[], []⟩
            [BuildStep.addNode NodeKind.objectNode ⟨1, 11⟩ ⟨0, 85⟩]).rbd
          false).server
        (UA_Server_addObjectNode_rb storeOkEnv false
          (run_build_steps storeOkEnv true baseServer ⟨[], []⟩
            [BuildStep.addNode NodeKind.objectNode ⟨1, 11⟩ ⟨0, 85⟩]).server
          ⟨1, 12⟩ ⟨0, 85⟩
          (run_build_steps storeOkEnv true baseServer ⟨[], []⟩
            [BuildStep.addNode NodeKind.objectNode ⟨1, 11⟩ ⟨0, 85⟩]).rbd
          false).rbd).server.nodes ∧
    (⟨1, 12⟩ : UA_NodeId) ∉ baseServer.nodes := by
  decide

/-- C1 (amended): for any builder sequence starting from an empty ledger,
provided no ledger append failed (allocations work) and the store honours
the deletes of the recorded ids, running the Rollback Executor on the
resulting ledger succeeds and restores the server's node set to exactly
the pre-sequence set — regardless of where (or whether) the sequence
failed. -/
theorem C1_rollback_completeness_amended (env : StoreEnv)
    (server0 : UA_Server) (scdt0 : List Nat) (steps : List BuildStep)
    (hfail : (run_build_steps env true server0 ⟨scdt0, []⟩ steps).status ≠
      UA_STATUSCODE_GOOD)
    (hdel : ∀ id ∈ (run_build_steps env true server0 ⟨scdt0, []⟩
        steps).rbd.node_ids, env.deleteFail id = UA_STATUSCODE_GOOD) :
    (ua_utils_do_rollback env
      (run_build_steps env true server0 ⟨scdt0, []⟩ steps).server
      (run_build_steps env true server0 ⟨scdt0, []⟩ steps).rbd).ret =
      true ∧
    (ua_utils_do_rollback env
      (run_build_steps env true server0 ⟨scdt0, []⟩ steps).server
      (run_build_steps env true server0 ⟨scdt0, []⟩
        steps).rbd).server.nodes = server0.nodes := by
  have hinv := run_build_steps_inv env true steps server0 ⟨scdt0, []⟩
    server0.nodes (by simp) (Or.inl rfl)
  have hall := ua_utils_do_rollback_all_good env
    (run_build_steps env true server0 ⟨scdt0, []⟩ steps).server
    (run_build_steps env true server0 ⟨scdt0, []⟩ steps).rbd
    server0.nodes hdel hinv
  exact ⟨hall.1, hall.2.1⟩

/-- C1 witness: a concrete failing sequence (duplicate-id rejection on the
second call) whose rollback restores the original node set. -/
theorem C1_witness :
    ((run_build_steps storeOkEnv true baseServer ⟨[], []⟩
        [BuildStep.addNode NodeKind.objectNode ⟨1, 11⟩ ⟨0, 85⟩,
         BuildStep.addNode NodeKind.objectNode ⟨1, 11⟩ ⟨0, 85⟩]).status ≠
      UA_STATUSCODE_GOOD) ∧
    (ua_utils_do_rollback storeOkEnv
      (run_build_steps storeOkEnv true baseServer ⟨[], []⟩
        [BuildStep.addNode NodeKind.objectNode ⟨1, 11⟩ ⟨0, 85⟩,
         BuildStep.addNode NodeKind.objectNode ⟨1, 11⟩ ⟨0, 85⟩]).server
      (run_build_steps storeOkEnv true baseServer ⟨[], []⟩
        [BuildStep.addNode NodeKind.objectNode ⟨1, 11⟩ ⟨0, 85⟩,
         BuildStep.addNode NodeKind.objectNode ⟨1, 11⟩ ⟨0, 85⟩]).rbd).ret =
      true ∧
    (ua_utils_do_rollback storeOkEnv
      (run_build_steps storeOkEnv true baseServer ⟨[], []⟩
        [BuildStep.addNode NodeKind.objectNode ⟨1, 11⟩ ⟨0, 85⟩,
         BuildStep.addNode NodeKind.objectNode ⟨1, 11⟩ ⟨0, 85⟩]).server
      (run_build_steps storeOkEnv true baseServer ⟨[], []⟩
        [BuildStep.addNode NodeKind.objectNode ⟨1, 11⟩ ⟨0, 85⟩,
         BuildStep.addNode NodeKind.objectNode ⟨1, 11⟩
           ⟨0, 85⟩]).rbd).server.nodes = baseServer.nodes :=
  ⟨by decide,
   C1_rollback_completeness_amended storeOkEnv baseServer []
     [BuildStep.addNode NodeKind.objectNode ⟨1, 11⟩ ⟨0, 85⟩,
      BuildStep.addNode NodeKind.objectNode ⟨1, 11⟩ ⟨0, 85⟩]
     (by decide) (by decide)⟩

/-- C2: the Rollback Executor deletes the recorded node identifiers in
exact reverse order of their creation (the delete-call trace equals the
reversed successful-creation trace); in particular, for every
parent-then-child creation sequence the child is deleted before the
parent. -/
theorem C2_reverse_order_deletion (env : StoreEnv) (server0 : UA_Server)
    (scdt0 : List Nat) (steps : List BuildStep)
    (hdel : ∀ id ∈ (run_build_steps env true server0 ⟨scdt0, []⟩
        steps).rbd.node_ids, env.deleteFail id = UA_STATUSCODE_GOOD) :
    deleteEventIds (ua_utils_do_rollback env
        (run_build_steps env true server0 ⟨scdt0, []⟩ steps).server
        (run_build_steps env true server0 ⟨scdt0, []⟩ steps).rbd).events =
      (successfulCreates
        (run_build_steps env true server0 ⟨scdt0, []⟩
          steps).events).reverse ∧
    ∀ (l₁ l₂ l₃ : List UA_NodeId) (p c : UA_NodeId),
      successfulCreates
          (run_build_steps env true server0 ⟨scdt0, []⟩ steps).events =
        l₁ ++ p :: l₂ ++ c :: l₃ →
      ∃ m₁ m₂ m₃ : List UA_NodeId,
        deleteEventIds (ua_utils_do_rollback env
            (run_build_steps env true server0 ⟨scdt0, []⟩ steps).server
            (run_build_steps env true server0 ⟨scdt0, []⟩
              steps).rbd).events = m₁ ++ c :: m₂ ++ p :: m₃ := by
  have hinv := run_build_steps_inv env true steps server0 ⟨scdt0, []⟩
    server0.nodes (by simp) (Or.inl rfl)
  have hall := ua_utils_do_rollback_all_good env
    (run_build_steps env true server0 ⟨scdt0, []⟩ steps).server
    (run_build_steps env true server0 ⟨scdt0, []⟩ steps).rbd
    server0.nodes hdel hinv
  have hcre := run_build_steps_creates env steps server0 ⟨scdt0, []⟩
  have hmain : deleteEventIds (ua_utils_do_rollback env
      (run_build_steps env true server0 ⟨scdt0, []⟩ steps).server
      (run_build_steps env true server0 ⟨scdt0, []⟩ steps).rbd).events =
      (successfulCreates
        (run_build_steps env true server0 ⟨scdt0, []⟩
          steps).events).reverse := by
    rw [hall.2.2, hcre]
    simp
  refine ⟨hmain, ?_⟩
  intro l₁ l₂ l₃ p c hsplit
  refine ⟨l₃.reverse, l₂.reverse, l₁.reverse, ?_⟩
  rw [hmain, hsplit]
  simp

/-- C2 witness: a concrete parent-then-child sequence (object (1, 11),
then variable (1, 12) under it); rollback deletes the child first. -/
theorem C2_witness :
    (∀ id ∈ (run_build_steps storeOkEnv true baseServer ⟨[], []⟩
        [BuildStep.addNode NodeKind.objectNode ⟨1, 11⟩ ⟨0, 85⟩,
         BuildStep.addNode NodeKind.variableNode ⟨1, 12⟩
           ⟨1, 11⟩]).rbd.node_ids,
      storeOkEnv.deleteFail id = UA_STATUSCODE_GOOD) ∧
    deleteEventIds (ua_utils_do_rollback storeOkEnv
        (run_build_steps storeOkEnv true baseServer ⟨[], []⟩
          [BuildStep.addNode NodeKind.objectNode ⟨1, 11⟩ ⟨0, 85⟩,
           BuildStep.addNode NodeKind.variableNode ⟨1, 12⟩
             ⟨1, 11⟩]).server
        (run_build_steps storeOkEnv true baseServer ⟨[], []⟩
          [BuildStep.addNode NodeKind.objectNode ⟨1, 11⟩ ⟨0, 85⟩,
           BuildStep.addNode NodeKind.variableNode ⟨1, 12⟩
             ⟨1, 11⟩]).rbd).events =
      (successfulCreates
        (run_build_steps storeOkEnv true baseServer ⟨[], []⟩
          [BuildStep.addNode NodeKind.objectNode ⟨1, 11⟩ ⟨0, 85⟩,
           BuildStep.addNode NodeKind.variableNode ⟨1, 12⟩
             ⟨1, 11⟩]).events).reverse :=
  ⟨by decide,
   (C2_reverse_order_deletion storeOkEnv baseServer []
     [BuildStep.addNode NodeKind.objectNode ⟨1, 11⟩ ⟨0, 85⟩,
      BuildStep.addNode NodeKind.variableNode ⟨1, 12⟩ ⟨1, 11⟩]
     (by decide)).1⟩

/-- C3 counterexample: the store creates node (1, 11) but the ledger
append fails (out of memory).  The facade reports the distinct
`BadOutOfMemory` code, but the node stays in the graph, is not recorded in
the ledger, no delete (or abort) happens — the events hold no delete call —
and the node survives a subsequent rollback: the unrecorded node leaks,
contradicting the claim's leak-prevention guarantee. -/
theorem C3_counterexample :
    (UA_Server_addObjectNode_rb storeOkEnv false baseServer ⟨1, 11⟩ ⟨0, 85⟩
      ⟨[], []⟩ false).status = UA_STATUSCODE_BADOUTOFMEMORY ∧
    (⟨1, 11⟩ : UA_NodeId) ∈
      (UA_Server_addObjectNode_rb storeOkEnv false baseServer ⟨1, 11⟩
        ⟨0, 85⟩ ⟨[], []⟩ false).server.nodes ∧
    (UA_Server_addObjectNode_rb storeOkEnv false baseServer ⟨1, 11⟩ ⟨0, 85⟩
      ⟨[], []⟩ false).rbd.node_ids = [] ∧
    hasDeleteEvent (UA_Server_addObjectNode_rb storeOkEnv false baseServer
      ⟨1, 11⟩ ⟨0, 85⟩ ⟨[], []⟩ false).events = false ∧
    (⟨1, 11⟩ : UA_NodeId) ∈
      (ua_utils_do_rollback storeOkEnv
        (UA_Server_addObjectNode_rb storeOkEnv false baseServer ⟨1, 11⟩
          ⟨0, 85⟩ ⟨[], []⟩ false).server
        (UA_Server_addObjectNode_rb storeOkEnv false baseServer ⟨1, 11⟩
          ⟨0, 85⟩ ⟨[], []⟩ false).rbd).server.nodes ∧
    (⟨1, 11⟩ : UA_NodeId) ∉ baseServer.nodes := by
  decide

/-- C3 (amended): when the ledger append fails after a successful
creation, the object wrapper does surface the distinct `BadOutOfMemory`
code and leaves the ledger untouched, but it neither aborts nor deletes
the just-created node: the node stays in the graph unrecorded and survives
rollback — the orphan state is reachable. -/
theorem C3_ledger_append_failure_amended (env : StoreEnv)
    (server : UA_Server) (req parent : UA_NodeId) (rbd : rollback_data_t)
    (wantOut : Bool)
    (hc : (create_node env server NodeKind.objectNode req parent).1 =
      UA_STATUSCODE_GOOD)
    (hx : (create_node env server NodeKind.objectNode req parent).2.2 ∉
      rbd.node_ids) :
    (UA_Server_addObjectNode_rb env false server req parent rbd
      wantOut).status = UA_STATUSCODE_BADOUTOFMEMORY ∧
    (UA_Server_addObjectNode_rb env false server req parent rbd
      wantOut).rbd = rbd ∧
    (create_node env server NodeKind.objectNode req parent).2.2 ∈
      (UA_Server_addObjectNode_rb env false server req parent rbd
        wantOut).server.nodes ∧
    (create_node env server NodeKind.objectNode req parent).2.2 ∈
      (ua_utils_do_rollback env
        (UA_Server_addObjectNode_rb env false server req parent rbd
          wantOut).server
        (UA_Server_addObjectNode_rb env false server req parent rbd
          wantOut).rbd).server.nodes := by
  obtain ⟨hn, _⟩ := create_node_good env server NodeKind.objectNode req
    parent hc
  have hwrap : UA_Server_addObjectNode_rb env false server req parent rbd
      wantOut =
      { status := (create_node env server NodeKind.objectNode req
          parent).1 ||| UA_STATUSCODE_BADOUTOFMEMORY
        server := (create_node env server NodeKind.objectNode req
          parent).2.1
        rbd := rbd
        outNewNodeId := if wantOut then
          some (create_node env server NodeKind.objectNode req parent).2.2
          else none
        events := [StoreEvent.createNode NodeKind.objectNode req
          (create_node env server NodeKind.objectNode req parent).2.2
          (create_node env server NodeKind.objectNode req parent).1] } := by
    simp [UA_Server_addObjectNode_rb, addNode_rb_core, hc,
      add_nodeid_to_rbd]
  have hmem : (create_node env server NodeKind.objectNode req parent).2.2 ∈
      (UA_Server_addObjectNode_rb env false server req parent rbd
        wantOut).server.nodes := by
    rw [hwrap]
    show (create_node env server NodeKind.objectNode req parent).2.2 ∈
      (create_node env server NodeKind.objectNode req parent).2.1.nodes
    rw [hn]
    exact List.mem_cons_self _ _
  refine ⟨?_, ?_, hmem, ?_⟩
  · rw [hwrap, hc]
    show UA_STATUSCODE_GOOD ||| UA_STATUSCODE_BADOUTOFMEMORY =
      UA_STATUSCODE_BADOUTOFMEMORY
    decide
  · rw [hwrap]
  · rw [hwrap]
    exact ua_utils_do_rollback_mem env _ rbd _ hx (by rw [← hwrap]; exact hmem)

/-- C3 witness: the amended statement at the concrete leak instance
(creation of (1, 11) succeeds, ledger append fails). -/
theorem C3_witness :
    ((create_node storeOkEnv baseServer NodeKind.objectNode ⟨1, 11⟩
        ⟨0, 85⟩).1 = UA_STATUSCODE_GOOD) ∧
    ((create_node storeOkEnv baseServer NodeKind.objectNode ⟨1, 11⟩
        ⟨0, 85⟩).2.2 ∉ (⟨[], []⟩ : rollback_data_t).node_ids) ∧
    ((UA_Server_addObjectNode_rb storeOkEnv false baseServer ⟨1, 11⟩
        ⟨0, 85⟩ ⟨[], []⟩ false).status = UA_STATUSCODE_BADOUTOFMEMORY ∧
     (UA_Server_addObjectNode_rb storeOkEnv false baseServer ⟨1, 11⟩
        ⟨0, 85⟩ ⟨[], []⟩ false).rbd = ⟨[], []⟩ ∧
     (create_node storeOkEnv baseServer NodeKind.objectNode ⟨1, 11⟩
        ⟨0, 85⟩).2.2 ∈
       (UA_Server_addObjectNode_rb storeOkEnv false baseServer ⟨1, 11⟩
          ⟨0, 85⟩ ⟨[], []⟩ false).server.nodes ∧
     (create_node storeOkEnv baseServer NodeKind.objectNode ⟨1, 11⟩
        ⟨0, 85⟩).2.2 ∈
       (ua_utils_do_rollback storeOkEnv
         (UA_Server_addObjectNode_rb storeOkEnv false baseServer ⟨1, 11⟩
            ⟨0, 85⟩ ⟨[], []⟩ false).server
         (UA_Server_addObjectNode_rb storeOkEnv false baseServer ⟨1, 11⟩
            ⟨0, 85⟩ ⟨[], []⟩ false).rbd).server.nodes) :=
  ⟨by decide, by decide,
   C3_ledger_append_failure_amended storeOkEnv baseServer ⟨1, 11⟩ ⟨0, 85⟩
     ⟨[], []⟩ false (by decide) (by decide)⟩

/-- C4 counterexample: the real ioports attempt run against a server whose
active custom data-type registry is NULL (`[]`).  The construction
succeeds and snapshots the NULL head in the ledger, but after rollback the
registry is still the attempt's own chain `[customUA_TYPES_IOP_tag]`, not
the saved pre-attempt value `[]` — the NULL case called out by the claim
is not restored. -/
theorem C4_counterexample :
    (ioports_ns storeOkEnv true baseServer ⟨[], []⟩).status =
      UA_STATUSCODE_GOOD ∧
    baseServer.config.customDataTypes = [] ∧
    (ioports_ns storeOkEnv true baseServer ⟨[], []⟩).rbd.saved_cdt = [] ∧
    (ua_utils_do_rollback storeOkEnv
      (ioports_ns storeOkEnv true baseServer ⟨[], []⟩).server
      (ioports_ns storeOkEnv true baseServer ⟨[], []⟩).rbd).ret = true ∧
    (ua_utils_do_rollback storeOkEnv
      (ioports_ns storeOkEnv true baseServer ⟨[], []⟩).server
      (ioports_ns storeOkEnv true baseServer
        ⟨[], []⟩).rbd).server.config.customDataTypes =
      [customUA_TYPES_IOP_tag] ∧
    [customUA_TYPES_IOP_tag] ≠ ([] : List Nat) := by
  decide

/-- C4 (amended): for a construction attempt that swapped the registry via
the ioports snapshot code, rollback restores the registry to exactly the
saved pre-attempt head — provided that pre-attempt head was non-NULL.
(When it was NULL, the ledger's `saved_cdt == NULL` also means "no
snapshot", and the executor leaves the attempt's registry installed.) -/
theorem C4_registry_restore_amended (env : StoreEnv) (allocOk : Bool)
    (server0 : UA_Server) (rbd0 : rollback_data_t) (steps : List BuildStep)
    (hcdt : server0.config.customDataTypes ≠ []) :
    (ua_utils_do_rollback env
      (run_build_steps env allocOk (ioports_ns_register_cdt server0 rbd0).1
        (ioports_ns_register_cdt server0 rbd0).2 steps).server
      (run_build_steps env allocOk (ioports_ns_register_cdt server0 rbd0).1
        (ioports_ns_register_cdt server0 rbd0).2
        steps).rbd).server.config.customDataTypes =
      server0.config.customDataTypes := by
  have hsv := run_build_steps_saved_cdt env allocOk steps
    (ioports_ns_register_cdt server0 rbd0).1
    (ioports_ns_register_cdt server0 rbd0).2
  rw [ua_utils_do_rollback_cdt, hsv]
  simp [ioports_ns_register_cdt, hcdt]

/-- C4 witness: a pre-attempt registry `[7]` is restored verbatim after a
swap, one created node and rollback. -/
theorem C4_witness :
    ({ baseServer with
        config := ⟨[7]⟩ } : UA_Server).config.customDataTypes ≠ [] ∧
    (ua_utils_do_rollback storeOkEnv
      (run_build_steps storeOkEnv true
        (ioports_ns_register_cdt { baseServer with config := ⟨[7]⟩ }
          ⟨[], []⟩).1
        (ioports_ns_register_cdt { baseServer with config := ⟨[7]⟩ }
          ⟨[], []⟩).2
        [BuildStep.addNode NodeKind.objectNode ⟨1, 11⟩ ⟨0, 85⟩]).server
      (run_build_steps storeOkEnv true
        (ioports_ns_register_cdt { baseServer with config := ⟨[7]⟩ }
          ⟨[], []⟩).1
        (ioports_ns_register_cdt { baseServer with config := ⟨[7]⟩ }
          ⟨[], []⟩).2
        [BuildStep.addNode NodeKind.objectNode ⟨1, 11⟩
          ⟨0, 85⟩]).rbd).server.config.customDataTypes =
      ({ baseServer with config := ⟨[7]⟩ } : UA_Server).config.customDataTypes :=
  ⟨by decide,
   C4_registry_restore_amended storeOkEnv true
     { baseServer with config := ⟨[7]⟩ } ⟨[], []⟩
     [BuildStep.addNode NodeKind.objectNode ⟨1, 11⟩ ⟨0, 85⟩] (by decide)⟩

/-- C5: whenever the ledger holds a saved registry snapshot (non-NULL
`saved_cdt`), the Rollback Executor's first store action is the registry
restore, and everything after it in the trace is a node-deletion call — no
delete is issued before the restore. -/
theorem C5_registry_restore_precedes_deletion (env : StoreEnv)
    (server : UA_Server) (rbd : rollback_data_t)
    (hsnap : rbd.saved_cdt ≠ []) :
    (ua_utils_do_rollback env server rbd).events.head? =
      some (StoreEvent.setCustomDataTypes rbd.saved_cdt) ∧
    ∀ e ∈ (ua_utils_do_rollback env server rbd).events.tail,
      isDeleteEvent e = true := by
  unfold ua_utils_do_rollback
  simp only [ne_eq, hsnap, not_false_eq_true, if_true]
  refine ⟨rfl, ?_⟩
  intro e he
  simp only [List.singleton_append, List.tail_cons] at he
  exact rollback_delete_loop_events_delete env rbd.node_ids _ e he

/-- C5 witness: a ledger with snapshot `[7]` and one recorded node. -/
theorem C5_witness :
    ((⟨[7], [⟨1, 11⟩]⟩ : rollback_data_t).saved_cdt ≠ []) ∧
    ((ua_utils_do_rollback storeOkEnv
        { baseServer with nodes := ⟨1, 11⟩ :: baseServer.nodes }
        ⟨[7], [⟨1, 11⟩]⟩).events.head? =
      some (StoreEvent.setCustomDataTypes
        (⟨[7], [⟨1, 11⟩]⟩ : rollback_data_t).saved_cdt) ∧
     ∀ e ∈ (ua_utils_do_rollback storeOkEnv
        { baseServer with nodes := ⟨1, 11⟩ :: baseServer.nodes }
        ⟨[7], [⟨1, 11⟩]⟩).events.tail, isDeleteEvent e = true) :=
  ⟨by decide,
   C5_registry_restore_precedes_deletion storeOkEnv
     { baseServer with nodes := ⟨1, 11⟩ :: baseServer.nodes }
     ⟨[7], [⟨1, 11⟩]⟩ (by decide)⟩

/-- C6 counterexample: two rollbacks failing on different node ids
((1, 11) vs (1, 22)) with the same underlying status produce *identical*
`GError` values — `"UA_Server_deleteNode() failed: BadInternalError"` with
code -1 — so the executor's error does not report the failed node's
identifier, contrary to the claim. -/
theorem C6_counterexample :
    (ua_utils_do_rollback storeDeleteRefusedEnv
      { baseServer with nodes := ⟨1, 11⟩ :: baseServer.nodes }
      ⟨[], [⟨1, 11⟩]⟩).ret = false ∧
    (ua_utils_do_rollback storeDeleteRefusedEnv
      { baseServer with nodes := ⟨1, 22⟩ :: baseServer.nodes }
      ⟨[], [⟨1, 22⟩]⟩).ret = false ∧
    (⟨1, 11⟩ : UA_NodeId) ≠ ⟨1, 22⟩ ∧
    (ua_utils_do_rollback storeDeleteRefusedEnv
      { baseServer with nodes := ⟨1, 11⟩ :: baseServer.nodes }
      ⟨[], [⟨1, 11⟩]⟩).err =
      (ua_utils_do_rollback storeDeleteRefusedEnv
        { baseServer with nodes := ⟨1, 22⟩ :: baseServer.nodes }
        ⟨[], [⟨1, 22⟩]⟩).err ∧
    (ua_utils_do_rollback storeDeleteRefusedEnv
      { baseServer with nodes := ⟨1, 11⟩ :: baseServer.nodes }
      ⟨[], [⟨1, 11⟩]⟩).err =
      some ⟨-1, "UA_Server_deleteNode() failed: BadInternalError"⟩ := by
  decide

/-- C6 (amended): when a delete fails mid-rollback, the executor stops at
the failing entry (the delete trace is exactly the clean prefix plus the
one failed attempt — no retries, nothing after), returns FALSE with a
`GError` carrying the underlying status name (but not the node's
identifier), removes only the prefix entries, and leaves every
not-yet-visited entry un-deleted in the graph. -/
theorem C6_stop_on_first_delete_failure_amended (env : StoreEnv)
    (server : UA_Server) (rbd : rollback_data_t) (pre : List UA_NodeId)
    (bad : UA_NodeId) (post : List UA_NodeId) (rest : List UA_NodeId)
    (hids : rbd.node_ids = pre ++ bad :: post)
    (hpre : ∀ id ∈ pre, env.deleteFail id = UA_STATUSCODE_GOOD)
    (hnodes : server.nodes = pre ++ rest)
    (hbad : env.deleteFail bad ≠ UA_STATUSCODE_GOOD) :
    (ua_utils_do_rollback env server rbd).ret = false ∧
    (ua_utils_do_rollback env server rbd).err =
      some ⟨-1, "UA_Server_deleteNode() failed: " ++
        UA_StatusCode_name (env.deleteFail bad)⟩ ∧
    deleteEventIds (ua_utils_do_rollback env server rbd).events =
      pre ++ [bad] ∧
    (ua_utils_do_rollback env server rbd).server.nodes = rest ∧
    ∀ x ∈ post, x ∈ server.nodes → x ∉ pre →
      x ∈ (ua_utils_do_rollback env server rbd).server.nodes := by
  have hrest : ∀ x ∈ post, x ∈ server.nodes → x ∉ pre → x ∈ rest := by
    intro x _ hxs hxp
    rw [hnodes] at hxs
    rcases List.mem_append.mp hxs with h | h
    · exact absurd h hxp
    · exact h
  unfold ua_utils_do_rollback
  rw [hids]
  by_cases hc : rbd.saved_cdt = []
  · simp only [hc, ne_eq, not_true_eq_false, if_false]
    rw [rollback_delete_loop_first_fail env pre bad post server rest hpre
      hnodes hbad]
    refine ⟨rfl, rfl, ?_, rfl, ?_⟩
    · simp [deleteEventIds, List.filterMap_append, List.filterMap_map,
        Function.comp_def]
    · intro x hx hxs hxp
      exact hrest x hx hxs hxp
  · simp only [ne_eq, hc, not_false_eq_true, if_true]
    rw [rollback_delete_loop_first_fail env pre bad post
      { server with config := { customDataTypes := rbd.saved_cdt } } rest
      hpre hnodes hbad]
    refine ⟨rfl, rfl, ?_, rfl, ?_⟩
    · simp [deleteEventIds, List.filterMap_append, List.filterMap_map,
        Function.comp_def]
    · intro x hx hxs hxp
      exact hrest x hx hxs hxp

/-- C6 witness: ledger (1,11), (1,22), (1,33); the store refuses (1,22).
The executor deletes (1,11), attempts (1,22), stops; (1,33) survives. -/
theorem C6_witness :
    ((⟨[], [⟨1, 11⟩, ⟨1, 22⟩, ⟨1, 33⟩]⟩ : rollback_data_t).node_ids =
      [⟨1, 11⟩] ++ ⟨1, 22⟩ :: [⟨1, 33⟩]) ∧
    (∀ id ∈ ([⟨1, 11⟩] : List UA_NodeId),
      storeDeleteBad22Env.deleteFail id = UA_STATUSCODE_GOOD) ∧
    (({ baseServer with
        nodes := [⟨1, 11⟩, ⟨1, 22⟩, ⟨1, 33⟩] } : UA_Server).nodes =
      [⟨1, 11⟩] ++ [⟨1, 22⟩, ⟨1, 33⟩]) ∧
    (storeDeleteBad22Env.deleteFail ⟨1, 22⟩ ≠ UA_STATUSCODE_GOOD) ∧
    ((ua_utils_do_rollback storeDeleteBad22Env
        { baseServer with nodes := [⟨1, 11⟩, ⟨1, 22⟩, ⟨1, 33⟩] }
        ⟨[], [⟨1, 11⟩, ⟨1, 22⟩, ⟨1, 33⟩]⟩).ret = false ∧
     (ua_utils_do_rollback storeDeleteBad22Env
        { baseServer with nodes := [⟨1, 11⟩, ⟨1, 22⟩, ⟨1, 33⟩] }
        ⟨[], [⟨1, 11⟩, ⟨1, 22⟩, ⟨1, 33⟩]⟩).err =
      some ⟨-1, "UA_Server_deleteNode() failed: " ++
        UA_StatusCode_name (storeDeleteBad22Env.deleteFail ⟨1, 22⟩)⟩ ∧
     deleteEventIds (ua_utils_do_rollback storeDeleteBad22Env
        { baseServer with nodes := [⟨1, 11⟩, ⟨1, 22⟩, ⟨1, 33⟩] }
        ⟨[], [⟨1, 11⟩, ⟨1, 22⟩, ⟨1, 33⟩]⟩).events =
      [⟨1, 11⟩] ++ [⟨1, 22⟩] ∧
     (ua_utils_do_rollback storeDeleteBad22Env
        { baseServer with nodes := [⟨1, 11⟩, ⟨1, 22⟩, ⟨1, 33⟩] }
        ⟨[], [⟨1, 11⟩, ⟨1, 22⟩, ⟨1, 33⟩]⟩).server.nodes =
      [⟨1, 22⟩, ⟨1, 33⟩] ∧
     ∀ x ∈ ([⟨1, 33⟩] : List UA_NodeId),
       x ∈ ({ baseServer with
         nodes := [⟨1, 11⟩, ⟨1, 22⟩, ⟨1, 33⟩] } : UA_Server).nodes →
       x ∉ ([⟨1, 11⟩] : List UA_NodeId) →
       x ∈ (ua_utils_do_rollback storeDeleteBad22Env
         { baseServer with nodes := [⟨1, 11⟩, ⟨1, 22⟩, ⟨1, 33⟩] }
         ⟨[], [⟨1, 11⟩, ⟨1, 22⟩, ⟨1, 33⟩]⟩).server.nodes) :=
  ⟨by decide, by decide, by decide, by decide,
   C6_stop_on_first_delete_failure_amended storeDeleteBad22Env
     { baseServer with nodes := [⟨1, 11⟩, ⟨1, 22⟩, ⟨1, 33⟩] }
     ⟨[], [⟨1, 11⟩, ⟨1, 22⟩, ⟨1, 33⟩]⟩ [⟨1, 11⟩] ⟨1, 22⟩ [⟨1, 33⟩]
     [⟨1, 22⟩, ⟨1, 33⟩] (by decide) (by decide) (by decide) (by decide)⟩

/-- C7: for every rollback-aware creation wrapper (object, variable,
data-type, object-type, method), if the store's creation primitive
rejects the request, the wrapper returns that status unchanged and leaves
both the ledger and the store exactly as they were. -/
theorem C7_facade_failure_atomicity (k : NodeKind) (env : StoreEnv)
    (allocOk : Bool) (server : UA_Server) (req parent : UA_NodeId)
    (rbd : rollback_data_t) (wantOut : Bool)
    (hfail : (create_node env server k req parent).1 ≠
      UA_STATUSCODE_GOOD) :
    (add_node_rb_for k env allocOk server req parent rbd wantOut).status =
      (create_node env server k req parent).1 ∧
    (add_node_rb_for k env allocOk server req parent rbd wantOut).rbd =
      rbd ∧
    (add_node_rb_for k env allocOk server req parent rbd wantOut).server =
      server := by
  cases k <;>
    simp only [add_node_rb_for, UA_Server_addObjectNode_rb,
      UA_Server_addVariableNode_rb, UA_Server_addDataTypeNode_rb,
      UA_Server_addObjectTypeNode_rb, UA_Server_addMethodNode_rb] <;>
    exact addNode_rb_core_fail _ env allocOk server req parent rbd wantOut
      hfail

/-- C7 witness: a duplicate-id rejection ((0, 85) already exists) passes
through the method wrapper unchanged with an untouched ledger. -/
theorem C7_witness :
    ((create_node storeOkEnv baseServer NodeKind.methodNode ⟨0, 85⟩
        ⟨0, 85⟩).1 ≠ UA_STATUSCODE_GOOD) ∧
    ((add_node_rb_for NodeKind.methodNode storeOkEnv true baseServer
        ⟨0, 85⟩ ⟨0, 85⟩ ⟨[], [⟨1, 11⟩]⟩ false).status =
      (create_node storeOkEnv baseServer NodeKind.methodNode ⟨0, 85⟩
        ⟨0, 85⟩).1 ∧
     (add_node_rb_for NodeKind.methodNode storeOkEnv true baseServer
        ⟨0, 85⟩ ⟨0, 85⟩ ⟨[], [⟨1, 11⟩]⟩ false).rbd = ⟨[], [⟨1, 11⟩]⟩ ∧
     (add_node_rb_for NodeKind.methodNode storeOkEnv true baseServer
        ⟨0, 85⟩ ⟨0, 85⟩ ⟨[], [⟨1, 11⟩]⟩ false).server = baseServer) :=
  ⟨by decide,
   C7_facade_failure_atomicity NodeKind.methodNode storeOkEnv true
     baseServer ⟨0, 85⟩ ⟨0, 85⟩ ⟨[], [⟨1, 11⟩]⟩ false (by decide)⟩

/-- C8: after an all-success builder sequence, no delete call was ever
issued to the store, the graph still holds every recorded node on top of
the original set, and clearing the ledger (`ua_utils_clear_rbd`) frees it
to NULL without any store interaction. -/
theorem C8_commit_discards_never_deletes (env : StoreEnv) (allocOk : Bool)
    (server0 : UA_Server) (scdt0 : List Nat) (steps : List BuildStep)
    (hok : (run_build_steps env allocOk server0 ⟨scdt0, []⟩ steps).status =
      UA_STATUSCODE_GOOD) :
    hasDeleteEvent
      (run_build_steps env allocOk server0 ⟨scdt0, []⟩ steps).events =
      false ∧
    (run_build_steps env allocOk server0 ⟨scdt0, []⟩ steps).server.nodes =
      (run_build_steps env allocOk server0 ⟨scdt0, []⟩ steps).rbd.node_ids
        ++ server0.nodes ∧
    ua_utils_clear_rbd
      (some (run_build_steps env allocOk server0 ⟨scdt0, []⟩ steps).rbd) =
      none := by
  refine ⟨?_, ?_, rfl⟩
  · rw [hasDeleteEvent, List.any_eq_false]
    intro e he
    rw [run_build_steps_no_delete env allocOk steps server0 ⟨scdt0, []⟩
      e he]
    decide
  · exact run_build_steps_inv env allocOk steps server0 ⟨scdt0, []⟩
      server0.nodes (by simp) (Or.inr hok)

/-- C8 witness: a concrete two-node all-success sequence followed by
the ledger clear. -/
theorem C8_witness :
    ((run_build_steps storeOkEnv true baseServer ⟨[], []⟩
        [BuildStep.addNode NodeKind.objectNode ⟨1, 11⟩ ⟨0, 85⟩,
         BuildStep.addNode NodeKind.variableNode ⟨1, 12⟩ ⟨1, 11⟩]).status =
      UA_STATUSCODE_GOOD) ∧
    (hasDeleteEvent
      (run_build_steps storeOkEnv true baseServer ⟨[], []⟩
        [BuildStep.addNode NodeKind.objectNode ⟨1, 11⟩ ⟨0, 85⟩,
         BuildStep.addNode NodeKind.variableNode ⟨1, 12⟩
           ⟨1, 11⟩]).events = false ∧
     (run_build_steps storeOkEnv true baseServer ⟨[], []⟩
        [BuildStep.addNode NodeKind.objectNode ⟨1, 11⟩ ⟨0, 85⟩,
         BuildStep.addNode NodeKind.variableNode ⟨1, 12⟩
           ⟨1, 11⟩]).server.nodes =
      (run_build_steps storeOkEnv true baseServer ⟨[], []⟩
        [BuildStep.addNode NodeKind.objectNode ⟨1, 11⟩ ⟨0, 85⟩,
         BuildStep.addNode NodeKind.variableNode ⟨1, 12⟩
           ⟨1, 11⟩]).rbd.node_ids ++ baseServer.nodes ∧
     ua_utils_clear_rbd
       (some (run_build_steps storeOkEnv true baseServer ⟨[], []⟩
         [BuildStep.addNode NodeKind.objectNode ⟨1, 11⟩ ⟨0, 85⟩,
          BuildStep.addNode NodeKind.variableNode ⟨1, 12⟩
            ⟨1, 11⟩]).rbd) = none) :=
  ⟨by decide,
   C8_commit_discards_never_deletes storeOkEnv true baseServer []
     [BuildStep.addNode NodeKind.objectNode ⟨1, 11⟩ ⟨0, 85⟩,
      BuildStep.addNode NodeKind.variableNode ⟨1, 12⟩ ⟨1, 11⟩]
     (by decide)⟩

/-- C9: a plugin whose construct entry point fails is not added to the
host's active plugin set, and loading proceeds: every later plugin that
loads and constructs successfully is in the active set. -/
theorem C9_failed_plugin_containment (env : HostEnv) (ctx : app_context_t)
    (pre rest : List String) (name : String)
    (hfail : env.outcome name = PluginOutcome.createFailed)
    (h1 : name ∉ ctx.plugins) (h2 : name ∉ pre) (h3 : name ∉ rest) :
    name ∉
      (launch_ua_server_load_plugins env (pre ++ name :: rest)
        ctx).plugins ∧
    ∀ m ∈ rest, env.outcome m = PluginOutcome.ok →
      m ∈ (launch_ua_server_load_plugins env (pre ++ name :: rest)
        ctx).plugins := by
  rw [launch_load_filter env (pre ++ name :: rest) ctx]
  constructor
  · intro hmem
    simp only [List.mem_append] at hmem
    rcases hmem with h | h
    · exact h1 h
    · have := List.mem_filter.mp h
      rcases List.mem_append.mp this.1 with h | h
      · exact h2 h
      · rcases List.mem_cons.mp h with h | h
        · rw [h, hfail] at this
          simp at this
        · exact h3 h
  · intro m hm hok
    apply List.mem_append.mpr
    right
    refine List.mem_filter.mpr ⟨?_, by simp [hok]⟩
    exact List.mem_append.mpr (Or.inr (List.mem_cons.mpr (Or.inr hm)))

/-- C9 witness: plugin "libopcua-bad.so" fails to construct between two
healthy plugins; it is absent from the active set and the later plugin
"libopcua-b.so" still loads. -/
theorem C9_witness :
    (hostEnvOneBad.outcome "libopcua-bad.so" =
      PluginOutcome.createFailed) ∧
    ("libopcua-bad.so" ∉ (⟨[]⟩ : app_context_t).plugins) ∧
    ("libopcua-bad.so" ∉ ["libopcua-a.so"]) ∧
    ("libopcua-bad.so" ∉ ["libopcua-b.so"]) ∧
    ("libopcua-bad.so" ∉
      (launch_ua_server_load_plugins hostEnvOneBad
        (["libopcua-a.so"] ++ "libopcua-bad.so" :: ["libopcua-b.so"])
        ⟨[]⟩).plugins ∧
     ∀ m ∈ ["libopcua-b.so"],
       hostEnvOneBad.outcome m = PluginOutcome.ok →
       m ∈ (launch_ua_server_load_plugins hostEnvOneBad
         (["libopcua-a.so"] ++ "libopcua-bad.so" :: ["libopcua-b.so"])
         ⟨[]⟩).plugins) :=
  ⟨by decide, by decide, by decide, by decide,
   C9_failed_plugin_containment hostEnvOneBad ⟨[]⟩ ["libopcua-a.so"]
     ["libopcua-b.so"] "libopcua-bad.so" (by decide) (by decide)
     (by decide) (by decide)⟩

/-- C10: calling the ioports construct entry point while the process-wide
plugin instance already exists returns TRUE immediately, issues no store
call, and leaves the whole state (plugin singleton and graph store)
unchanged. -/
theorem C10_construct_idempotent (env : IopEnv) (g : GlobalState)
    (hexists : g.plugin.isSome = true) :
    opc_ua_create env g = (true, g, []) := by
  unfold opc_ua_create
  simp [hexists]

/-- C10 witness: the second construct call on the exact state a successful
first call left behind returns TRUE with that state unchanged. -/
theorem C10_witness :
    ((opc_ua_create iopOkEnv
        ⟨none, baseServer⟩).2.1.plugin.isSome = true) ∧
    opc_ua_create iopOkEnv (opc_ua_create iopOkEnv ⟨none, baseServer⟩).2.1 =
      (true, (opc_ua_create iopOkEnv ⟨none, baseServer⟩).2.1, []) :=
  ⟨by decide,
   C10_construct_idempotent iopOkEnv
     (opc_ua_create iopOkEnv ⟨none, baseServer⟩).2.1 (by decide)⟩

end OpcUa
